import Mathlib

/-!
# GDPdU CSV export (`csv-gdpdu-export.c`)

A shallow embedding of the GDPdU exporter of GnuCash and the properties of its
specification.

* C strings (`gchar *`) are lists of characters (`Str`); a `NULL` string is `none`.
* The GLib string functions are modelled after their documented contracts.
* The ledger (book), the engine accessors and the C library streams are an explicit
  environment: the queries return lists of records, a stream records every `fwrite` call and
  the file system records every `g_fopen` call.
* Memory is not modelled: `g_free`, `g_strfreev`, `g_list_free` and `qof_query_destroy` have
  no counterpart.
-/

namespace GnuCash

/-! ## Strings and GLib -/

/-- A C string: the bytes before the terminating NUL. -/
abbrev Str := List Char

/-- The line terminator `EOLSTR` of a build without `G_OS_WIN32`. -/
def EOLSTR : Str := ['\r', '\n']

/-- The C library `strlen`. -/
def strlen (s : Str) : Nat := s.length

/-- GLib `g_strdup`: a copy of the string. -/
def g_strdup (s : Str) : Str := s

/-- GLib `g_strconcat`: the arguments before the terminating `NULL`, concatenated. -/
def g_strconcat : List Str → Str
  | [] => []
  | s :: rest => s ++ g_strconcat rest

/-- The scan underlying `g_strsplit`. `cuts` is the number of cuts still allowed (`none`: no
limit), `skip` the number of bytes of a delimiter just found that are still to be stepped over,
`cur` the piece being read, in reverse. -/
def g_strsplit_scan (delimiter : Str) : Option Nat → Nat → Str → Str → List Str
  | _, _, cur, [] => [cur.reverse]
  | cuts, skip + 1, cur, _ :: rest => g_strsplit_scan delimiter cuts skip cur rest
  | some 0, 0, cur, c :: rest => [cur.reverse ++ c :: rest]
  | cuts, 0, cur, c :: rest =>
    if delimiter.isPrefixOf (c :: rest) then
      cur.reverse :: g_strsplit_scan delimiter (cuts.map Nat.pred) (delimiter.length - 1) [] rest
    else
      g_strsplit_scan delimiter cuts 0 (c :: cur) rest

/-- GLib `g_strsplit (string, delimiter, max_tokens)`: the pieces of `string` between the
occurrences of `delimiter`, at most `max_tokens` of them (the rest of the string stays in
the last piece); with `max_tokens < 1` the string is split completely. Splitting the empty string
gives the empty vector. An empty delimiter is refused (no pieces). -/
def g_strsplit (string delimiter : Str) (max_tokens : Int) : List Str :=
  if delimiter = [] then []
  else if string = [] then []
  else
    g_strsplit_scan delimiter (if max_tokens < 1 then none else some (max_tokens.toNat - 1))
      0 [] string

/-- GLib `g_strjoinv (separator, str_array)`: the strings of the vector with the separator
between each two of them. -/
def g_strjoinv (separator : Str) : List Str → Str
  | [] => []
  | [s] => s
  | s :: t :: rest => s ++ separator ++ g_strjoinv separator (t :: rest)

/-- GLib `g_strrstr (haystack, needle)`: the offset of the last occurrence of `needle` in
`haystack`, `none` (the C `NULL`) when there is none. An empty needle is found at the start. -/
def g_strrstr (haystack needle : Str) : Option Nat :=
  if strlen needle = 0 then some 0
  else if strlen haystack < strlen needle then none
  else
    (List.range (strlen haystack - strlen needle + 1)).reverse.find?
      (fun p => needle.isPrefixOf (haystack.drop p))

/-! ## The export configuration -/

/-- The fields of `CsvExportInfo` (declared in `assistant-csv-export.h`) that the exporter
reads or writes. -/
structure CsvExportInfo where
  /-- The base path of the output files. -/
  file_name : Str
  /-- The delimiter the field escaper looks for. -/
  separator_str : Str
  /-- The string appended after every field. -/
  mid_sep : Str
  /-- The string of the "always quote" mode that opens and closes a line. -/
  end_sep : Str
  /-- The mode "fields are always quoted". -/
  use_quotes : Bool
  /-- The failure flag. -/
  failed : Bool
  deriving DecidableEq, Repr

/-- Source `csv_txn_test_field_string`: double the quotes of the field, and wrap it in quotes
when it holds the separator, a newline or a quote and the configuration does not quote
every field anyway. -/
def csv_txn_test_field_string (info : CsvExportInfo) (string_in : Str) : Str :=
  let parts := g_strsplit string_in ['"'] (-1)
  let string_parts := g_strjoinv ['"', '"'] parts
  let need_quote := false
  let need_quote := if (g_strrstr string_parts info.separator_str).isSome then true else need_quote
  let need_quote := if (g_strrstr string_parts ['\n']).isSome then true else need_quote
  let need_quote := if (g_strrstr string_parts ['"']).isSome then true else need_quote
  if !info.use_quotes && need_quote then
    g_strconcat [['"'], string_parts, ['"']]
  else
    g_strdup string_parts

/-! ## The ledger -/

/-- An identifier of the engine (`GncGUID`), represented by the string that `guid_to_string`
prints for it. -/
structure GncGUID where
  string : Str

/-- Engine `guid_to_string`. -/
@[reducible] def guid_to_string (guid : GncGUID) : Str := guid.string

/-- An account of the book, as far as the exporter observes it. The root account is the one
without a parent. `code` is `none` when `xaccAccountGetCode` returns `NULL`; `full_name` is the
result of `gnc_account_get_full_name`. -/
inductive Account where
  | mk (guid : GncGUID) (parent : Option Account) (code : Option Str) (name : Str)
      (full_name : Str)

/-- Engine `xaccAccountGetGUID`. -/
@[reducible] def xaccAccountGetGUID : Account → GncGUID
  | .mk guid _ _ _ _ => guid

/-- Engine `gnc_account_get_parent`. -/
@[reducible] def gnc_account_get_parent : Account → Option Account
  | .mk _ parent _ _ _ => parent

/-- Engine `gnc_account_is_root`: the account has no parent. -/
@[reducible] def gnc_account_is_root (account : Account) : Bool :=
  (gnc_account_get_parent account).isNone

/-- Engine `xaccAccountGetCode`. -/
@[reducible] def xaccAccountGetCode : Account → Option Str
  | .mk _ _ code _ _ => code

/-- Engine `xaccAccountGetName`. -/
@[reducible] def xaccAccountGetName : Account → Str
  | .mk _ _ _ name _ => name

/-- Engine `gnc_account_get_full_name`. -/
@[reducible] def gnc_account_get_full_name : Account → Str
  | .mk _ _ _ _ full_name => full_name

/-- A transaction of the book, as far as the exporter observes it. The dates are held as the
strings `qof_print_date` prints for them; `num`, `description` and `doclink` are `none` when
the accessor returns `NULL`. -/
inductive Transaction where
  | mk (guid : GncGUID) (reversed_by : Option Transaction) (date_posted : Str)
      (date_entered : Str) (num : Option Str) (description : Option Str)
      (doclink : Option Str) (void_status : Bool)

/-- Engine `xaccTransGetGUID`. -/
@[reducible] def xaccTransGetGUID : Transaction → GncGUID
  | .mk guid _ _ _ _ _ _ _ => guid

/-- Engine `xaccTransGetReversedBy`. -/
@[reducible] def xaccTransGetReversedBy : Transaction → Option Transaction
  | .mk _ reversed_by _ _ _ _ _ _ => reversed_by

/-- Engine `qof_print_date (xaccTransGetDate (trans))`. -/
@[reducible] def print_date_posted : Transaction → Str
  | .mk _ _ date_posted _ _ _ _ _ => date_posted

/-- Engine `qof_print_date (xaccTransGetDateEntered (trans))`. -/
@[reducible] def print_date_entered : Transaction → Str
  | .mk _ _ _ date_entered _ _ _ _ => date_entered

/-- Engine `xaccTransGetNum`. -/
@[reducible] def xaccTransGetNum : Transaction → Option Str
  | .mk _ _ _ _ num _ _ _ => num

/-- Engine `xaccTransGetDescription`. -/
@[reducible] def xaccTransGetDescription : Transaction → Option Str
  | .mk _ _ _ _ _ description _ _ => description

/-- Engine `xaccTransGetDocLink`. -/
@[reducible] def xaccTransGetDocLink : Transaction → Option Str
  | .mk _ _ _ _ _ _ doclink _ => doclink

/-- Engine `xaccTransGetVoidStatus`. -/
@[reducible] def xaccTransGetVoidStatus : Transaction → Bool
  | .mk _ _ _ _ _ _ _ void_status => void_status

/-- A split of the book, as far as the exporter observes it. `parent` is the transaction
`xaccSplitGetParent` returns (a split of the query belongs to a transaction); `account` is
`none` when `xaccSplitGetAccount` returns `NULL` (a blank split); `memo` is `none` when
`xaccSplitGetMemo` returns `NULL`, while the action of a split is always a string. The two
amounts are held as the strings `xaccPrintAmount` prints for them with
`gnc_split_amount_print_info (split, symbol)`, as functions of `symbol`. -/
structure Split where
  guid : GncGUID
  parent : Transaction
  account : Option Account
  print_amount : Bool → Str
  print_void_former_amount : Bool → Str
  action : Str
  memo : Option Str

/-- Engine `xaccSplitGetGUID`. -/
@[reducible] def xaccSplitGetGUID (split : Split) : GncGUID := split.guid

/-- Engine `xaccSplitGetParent`. -/
@[reducible] def xaccSplitGetParent (split : Split) : Transaction := split.parent

/-- Engine `xaccSplitGetAccount`. -/
@[reducible] def xaccSplitGetAccount (split : Split) : Option Account := split.account

/-- Engine `xaccSplitGetAction`. -/
@[reducible] def xaccSplitGetAction (split : Split) : Str := split.action

/-- Engine `xaccSplitGetMemo`. -/
@[reducible] def xaccSplitGetMemo (split : Split) : Option Str := split.memo

/-- The current book (`gnc_get_current_book`), as the three queries of the exporter see it:
the splits in the order of the split query (sorted by the date posted of the transaction), the
transactions in the order of the transaction query (sorted by date posted), and
`gnc_account_get_descendants_sorted` of the root account. -/
structure QofBook where
  splits : List Split
  transactions : List Transaction
  accounts : List Account

/-! ## Streams and files -/

/-- An open stream (`FILE *`). `accept` is the environment: the number of bytes the device
takes at most in each of the coming `fwrite` calls (once the list is used up every call is
complete). `calls` records the `fwrite` calls made so far: the buffer and the count written. -/
structure FILE where
  name : Str
  accept : List Nat
  calls : List (Str × Nat)

/-- The bytes the stream has received. -/
def FILE.content (fh : FILE) : Str :=
  (fh.calls.map (fun c => c.1.take c.2)).flatten

/-- The C library `fwrite (ptr, 1, nmemb, fh)`: the count of bytes written, and the stream
afterwards. -/
def fwrite (ptr : Str) (nmemb : Nat) (fh : FILE) : Nat × FILE :=
  let written :=
    match fh.accept with
    | [] => nmemb
    | room :: _ => min room nmemb
  (written, { fh with accept := fh.accept.tail, calls := fh.calls ++ [(ptr, written)] })

/-- The file system. `device` is the environment: for a file name, `none` when the file cannot
be opened for writing and otherwise what the device will take (see `FILE.accept`).
`fopen_log` records the names of the `g_fopen` calls, `closed` the streams closed so far, the
latest first. -/
structure FileSystem where
  device : Str → Option (List Nat)
  fopen_log : List Str
  closed : List FILE

/-- GLib `g_fopen (name, "w")`: a fresh stream, or `none` (the C `NULL`). -/
def g_fopen (name : Str) (fs : FileSystem) : Option FILE × FileSystem :=
  ((fs.device name).map (fun room => { name := name, accept := room, calls := [] }),
    { fs with fopen_log := fs.fopen_log ++ [name] })

/-- The C library `fclose`. -/
def fclose (fh : FILE) (fs : FileSystem) : FileSystem :=
  { fs with closed := fh :: fs.closed }

/-- The file of the given name as the latest `fclose` left it. -/
def FileSystem.file (fs : FileSystem) (name : Str) : Option FILE :=
  fs.closed.find? (fun fh => fh.name = name)

/-- Source `write_line_to_file`: write the line to the stream, `true` when all of it was
written. The lengths are C `int`s in the source; lines are taken to be shorter than `2 ^ 31`
bytes, so that the conversions keep the values. -/
def write_line_to_file (fh : FILE) (line : Str) : Bool × FILE :=
  let len := strlen line
  let (written, fh) := fwrite line len fh
  if written != len then
    (false, fh)
  else
    (true, fh)

/-! ## The field writers -/

/-- Source `write_account_guid`. -/
def write_account_guid (so_far : Str) (account : Account) (info : CsvExportInfo) : Str :=
  let guid := guid_to_string (xaccAccountGetGUID account)
  g_strconcat [so_far, guid, info.mid_sep]

/-- Source `write_account_parent_guid`. An account that is not the root has a parent, so the
last case of the match is never taken. -/
def write_account_parent_guid (so_far : Str) (account : Account) (info : CsvExportInfo) : Str :=
  if gnc_account_is_root account then
    g_strconcat [so_far, info.mid_sep]
  else
    match gnc_account_get_parent account with
    | some parent =>
      if gnc_account_is_root parent then
        g_strconcat [so_far, info.mid_sep]
      else
        let guid := guid_to_string (xaccAccountGetGUID parent)
        g_strconcat [so_far, guid, info.mid_sep]
    | none => g_strconcat [so_far, info.mid_sep]

/-- Source `write_account_code`. -/
def write_account_code (so_far : Str) (account : Account) (info : CsvExportInfo) : Str :=
  let code := match xaccAccountGetCode account with
    | some code => code
    | none => []
  let conv := csv_txn_test_field_string info code
  g_strconcat [so_far, conv, info.mid_sep]

/-- Source `write_account_name`. -/
def write_account_name (so_far : Str) (account : Account) (full : Bool) (info : CsvExportInfo) :
    Str :=
  let name :=
    if full then gnc_account_get_full_name account
    else g_strdup (xaccAccountGetName account)
  let conv := csv_txn_test_field_string info name
  g_strconcat [so_far, conv, info.mid_sep]

/-- Source `write_transaction_guid`. -/
def write_transaction_guid (so_far : Str) (trans : Transaction) (info : CsvExportInfo) : Str :=
  let guid := guid_to_string (xaccTransGetGUID trans)
  g_strconcat [so_far, guid, info.mid_sep]

/-- Source `write_transaction_reversedby_guid`. -/
def write_transaction_reversedby_guid (so_far : Str) (trans : Transaction)
    (info : CsvExportInfo) : Str :=
  let reversedBy := xaccTransGetReversedBy trans
  match reversedBy with
  | some reversedBy =>
    let guid := guid_to_string (xaccTransGetGUID reversedBy)
    g_strconcat [so_far, guid, info.mid_sep]
  | none => g_strconcat [so_far, info.mid_sep]

/-- Source `write_transaction_date_posted`. -/
def write_transaction_date_posted (so_far : Str) (trans : Transaction) (info : CsvExportInfo) :
    Str :=
  let date := print_date_posted trans
  g_strconcat [so_far, date, info.mid_sep]

/-- Source `write_transaction_date_entered`. -/
def write_transaction_date_entered (so_far : Str) (trans : Transaction) (info : CsvExportInfo) :
    Str :=
  let date := print_date_entered trans
  g_strconcat [so_far, date, info.mid_sep]

/-- Source `write_transaction_number`. -/
def write_transaction_number (so_far : Str) (trans : Transaction) (info : CsvExportInfo) : Str :=
  let num := match xaccTransGetNum trans with
    | some num => num
    | none => []
  let conv := csv_txn_test_field_string info num
  g_strconcat [so_far, conv, info.mid_sep]

/-- Source `write_transaction_description`. -/
def write_transaction_description (so_far : Str) (trans : Transaction) (info : CsvExportInfo) :
    Str :=
  let desc := match xaccTransGetDescription trans with
    | some desc => desc
    | none => []
  let conv := csv_txn_test_field_string info desc
  g_strconcat [so_far, conv, info.mid_sep]

/-- Source `write_transaction_doclink`. -/
def write_transaction_doclink (so_far : Str) (trans : Transaction) (info : CsvExportInfo) :
    Str :=
  let desc := match xaccTransGetDocLink trans with
    | some desc => desc
    | none => []
  let conv := csv_txn_test_field_string info desc
  g_strconcat [so_far, conv, info.mid_sep]

/-- Source `write_split_guid`. -/
def write_split_guid (so_far : Str) (split : Split) (info : CsvExportInfo) : Str :=
  let guid := guid_to_string (xaccSplitGetGUID split)
  g_strconcat [so_far, guid, info.mid_sep]

/-- Source `write_split_action`. -/
def write_split_action (so_far : Str) (split : Split) (info : CsvExportInfo) : Str :=
  let action := xaccSplitGetAction split
  let conv := csv_txn_test_field_string info action
  g_strconcat [so_far, conv, info.mid_sep]

/-- Source `write_split_memo`. -/
def write_split_memo (so_far : Str) (split : Split) (info : CsvExportInfo) : Str :=
  let memo := match xaccSplitGetMemo split with
    | some memo => memo
    | none => []
  let conv := csv_txn_test_field_string info memo
  g_strconcat [so_far, conv, info.mid_sep]

/-- Source `write_split_amount`. -/
def write_split_amount (so_far : Str) (split : Split) (t_void : Bool) (symbol : Bool)
    (info : CsvExportInfo) : Str :=
  let amt :=
    if t_void then split.print_void_former_amount symbol
    else split.print_amount symbol
  let conv := csv_txn_test_field_string info amt
  g_strconcat [so_far, conv, info.mid_sep]

/-- Source `write_end_seperator`. -/
def write_end_seperator (so_far : Str) (_info : CsvExportInfo) : Str :=
  g_strconcat [so_far, EOLSTR]

/-! ## The table writers -/

/-- The line `write_splits_table` builds for a split with its account (the body of the loop
from `g_strdup ("")` to `write_end_seperator`). -/
def write_splits_table_line (info : CsvExportInfo) (split : Split) (account : Account) : Str :=
  let transaction := xaccSplitGetParent split
  let t_void := xaccTransGetVoidStatus transaction
  let line := g_strdup []
  let line := write_split_guid line split info
  let line := write_transaction_guid line transaction info
  let line := write_account_guid line account info
  let line := write_split_amount line split t_void false info
  let line := write_split_action line split info
  let line := write_split_memo line split info
  let line := write_end_seperator line info
  line

/-- The loop of `write_splits_table` over the result of the query. -/
def write_splits_table_loop (info : CsvExportInfo) : List Split → FILE → CsvExportInfo × FILE
  | [], fh => (info, fh)
  | split :: splits, fh =>
    match xaccSplitGetAccount split with
    | none => write_splits_table_loop info splits fh
    | some account =>
      let line := write_splits_table_line info split account
      match write_line_to_file fh line with
      | (false, fh) => ({ info with failed := true }, fh)
      | (true, fh) => write_splits_table_loop info splits fh

/-- Source `write_splits_table`. -/
def write_splits_table (book : QofBook) (info : CsvExportInfo) (fh : FILE) :
    CsvExportInfo × FILE :=
  write_splits_table_loop info book.splits fh

/-- The line `write_transactions_table` builds for a transaction. -/
def write_transactions_table_line (info : CsvExportInfo) (transaction : Transaction) : Str :=
  let line := g_strdup []
  let line := write_transaction_guid line transaction info
  let line := write_transaction_reversedby_guid line transaction info
  let line := write_transaction_date_posted line transaction info
  let line := write_transaction_date_entered line transaction info
  let line := write_transaction_number line transaction info
  let line := write_transaction_description line transaction info
  let line := write_transaction_doclink line transaction info
  let line := write_end_seperator line info
  line

/-- The loop of `write_transactions_table` over the result of the query. -/
def write_transactions_table_loop (info : CsvExportInfo) :
    List Transaction → FILE → CsvExportInfo × FILE
  | [], fh => (info, fh)
  | transaction :: transactions, fh =>
    let line := write_transactions_table_line info transaction
    match write_line_to_file fh line with
    | (false, fh) => ({ info with failed := true }, fh)
    | (true, fh) => write_transactions_table_loop info transactions fh

/-- Source `write_transactions_table`. -/
def write_transactions_table (book : QofBook) (info : CsvExportInfo) (fh : FILE) :
    CsvExportInfo × FILE :=
  write_transactions_table_loop info book.transactions fh

/-- The line `write_accounts_table` builds for an account. -/
def write_accounts_table_line (info : CsvExportInfo) (account : Account) : Str :=
  let line := g_strdup []
  let line := write_account_guid line account info
  let line := write_account_parent_guid line account info
  let line := write_account_code line account info
  let line := write_account_name line account false info
  let line := write_account_name line account true info
  let line := write_end_seperator line info
  line

/-- The loop of `write_accounts_table` over the descendants of the root account. -/
def write_accounts_table_loop (info : CsvExportInfo) : List Account → FILE → CsvExportInfo × FILE
  | [], fh => (info, fh)
  | account :: accounts, fh =>
    let line := write_accounts_table_line info account
    match write_line_to_file fh line with
    | (false, fh) => ({ info with failed := true }, fh)
    | (true, fh) => write_accounts_table_loop info accounts fh

/-- Source `write_accounts_table`. -/
def write_accounts_table (book : QofBook) (info : CsvExportInfo) (fh : FILE) :
    CsvExportInfo × FILE :=
  write_accounts_table_loop info book.accounts fh

/-! ## The export -/

/-- Source `csv_gdpdu_export_splits`. -/
def csv_gdpdu_export_splits (book : QofBook) (info : CsvExportInfo) (fs : FileSystem) :
    CsvExportInfo × FileSystem :=
  let splits_file_name :=
    g_strconcat [info.file_name, ['_', 's', 'p', 'l', 'i', 't', 's', '.', 'c', 's', 'v']]
  match g_fopen splits_file_name fs with
  | (some fh, fs) =>
    let (info, fh) := write_splits_table book info fh
    (info, fclose fh fs)
  | (none, fs) => ({ info with failed := true }, fs)

/-- Source `csv_gdpdu_export_transactions`. -/
def csv_gdpdu_export_transactions (book : QofBook) (info : CsvExportInfo) (fs : FileSystem) :
    CsvExportInfo × FileSystem :=
  let splits_file_name :=
    g_strconcat [info.file_name,
      ['_', 't', 'r', 'a', 'n', 's', 'a', 'c', 't', 'i', 'o', 'n', 's', '.', 'c', 's', 'v']]
  match g_fopen splits_file_name fs with
  | (some fh, fs) =>
    let (info, fh) := write_transactions_table book info fh
    (info, fclose fh fs)
  | (none, fs) => ({ info with failed := true }, fs)

/-- Source `csv_gdpdu_export_accounts`. -/
def csv_gdpdu_export_accounts (book : QofBook) (info : CsvExportInfo) (fs : FileSystem) :
    CsvExportInfo × FileSystem :=
  let splits_file_name :=
    g_strconcat [info.file_name, ['_', 'a', 'c', 'c', 'o', 'u', 'n', 't', 's', '.', 'c', 's', 'v']]
  match g_fopen splits_file_name fs with
  | (some fh, fs) =>
    let (info, fh) := write_accounts_table book info fh
    (info, fclose fh fs)
  | (none, fs) => ({ info with failed := true }, fs)

/-- The assignments at the start of `csv_gdpdu_export`: the configuration the three tables are
written with. -/
def csv_gdpdu_export_setup (info : CsvExportInfo) : CsvExportInfo :=
  let info := { info with failed := false }
  let info := { info with end_sep := ['"'] }
  let info := { info with separator_str := [';'] }
  let info := { info with mid_sep := g_strconcat [[';']] }
  info

/-- Source `csv_gdpdu_export`. -/
def csv_gdpdu_export (book : QofBook) (info : CsvExportInfo) (fs : FileSystem) :
    CsvExportInfo × FileSystem :=
  let info := csv_gdpdu_export_setup info
  let (info, fs) := csv_gdpdu_export_splits book info fs
  let (info, fs) := csv_gdpdu_export_transactions book info fs
  let (info, fs) := csv_gdpdu_export_accounts book info fs
  (info, fs)

/-! ## Definitions of the specification -/

/-- Specification, line builder: every field followed by the delimiter `;`, then CRLF. -/
def gdpdu_row (fields : List Str) : Str :=
  (fields.map (fun field => field ++ [';'])).flatten ++ ['\r', '\n']

/-- Specification, field escaper: every quote character of the text duplicated. -/
def double_quotes (text : Str) : Str :=
  (text.map (fun c => if c = '"' then ['"', '"'] else [c])).flatten

/-- Specification, field escaper: the doubled text, wrapped in quotes exactly when it contains
the delimiter, a newline or a quote and the configuration is not in "always quote" mode. -/
def escaped_field (delimiter : Str) (always_quote : Bool) (text : Str) : Str :=
  let doubled := double_quotes text
  if (delimiter <:+: doubled ∨ '\n' ∈ doubled ∨ '"' ∈ doubled) ∧ always_quote = false then
    ['"'] ++ doubled ++ ['"']
  else doubled

/-- The parent column of an account: empty for the root account and for an account right
under the root account, the identifier of the parent otherwise. -/
def parent_guid_column (account : Account) : Str :=
  match gnc_account_get_parent account with
  | none => []
  | some parent =>
    if gnc_account_is_root parent then [] else guid_to_string (xaccAccountGetGUID parent)

/-- Specification, reading a line back: the scan of the quote-aware splitter. `quoted` tells
whether the scan is inside a quoted region, `cur` holds the field being read, in reverse. A
quote character opens or closes a quoted region; the delimiter `;` outside a quoted region ends
the field. -/
def csv_split_scan : Bool → Str → Str → List Str
  | _, cur, [] => [cur.reverse]
  | quoted, cur, c :: rest =>
    if c = '"' then csv_split_scan (!quoted) (c :: cur) rest
    else if c = ';' ∧ quoted = false then cur.reverse :: csv_split_scan false [] rest
    else csv_split_scan quoted (c :: cur) rest

/-- Specification, reading a line back: the text split at the delimiters outside quoted
regions. -/
def csv_split (line : Str) : List Str := csv_split_scan false [] line

/-- Specification, reading a field back: every doubled quote collapsed into one. -/
def csv_collapse : Str → Str
  | [] => []
  | [c] => [c]
  | c :: d :: rest =>
    if c = '"' ∧ d = '"' then '"' :: csv_collapse rest else c :: csv_collapse (d :: rest)

/-- Specification, reading a field back: a field inside outer quotes loses them and has its
doubled quotes collapsed; any other field is taken as it is. -/
def csv_unquote : Str → Str
  | [] => []
  | c :: rest =>
    if c = '"' ∧ rest.getLast? = some '"' then csv_collapse rest.dropLast else c :: rest

/-- The lines of the splits table for the result of the split query: one for each split with
an account, in the order of the query. -/
def splits_table_lines (info : CsvExportInfo) (splits : List Split) : List Str :=
  splits.filterMap
    (fun split => (xaccSplitGetAccount split).map (write_splits_table_line info split))

/-- The lines of the transactions table: one for each transaction, in the order of the query. -/
def transactions_table_lines (info : CsvExportInfo) (transactions : List Transaction) :
    List Str :=
  transactions.map (write_transactions_table_line info)

/-- The lines of the accounts table: one for each account, in the order of the list. -/
def accounts_table_lines (info : CsvExportInfo) (accounts : List Account) : List Str :=
  accounts.map (write_accounts_table_line info)

/-- The common shape of the three loops: the lines go to the stream one after the other, up to
and including the first one that `write_line_to_file` reports as not written; the result
tells whether all of them were written. -/
def write_lines : List Str → FILE → Bool × FILE
  | [], fh => (true, fh)
  | line :: lines, fh =>
    match write_line_to_file fh line with
    | (false, fh) => (false, fh)
    | (true, fh) => write_lines lines fh

/-- The device takes each of the lines in full: the room of the coming `fwrite` calls
(see `FILE.accept`) is enough for the lines, one after the other. -/
def takes : List Nat → List Str → Bool
  | [], _ => true
  | _ :: _, [] => true
  | room :: accept, line :: lines => decide (strlen line ≤ room) && takes accept lines

/-- The stream a table leaves behind when its file can be opened (`device` is what the file
system answers for the name of the file): the lines written to a fresh stream of that name. -/
def table_stream (name : Str) (lines : List Str) (device : Option (List Nat)) : Option FILE :=
  device.map (fun room => (write_lines lines { name := name, accept := room, calls := [] }).2)

/-- Whether a table goes through: its file can be opened and every line is written in full. -/
def table_ok (name : Str) (lines : List Str) (device : Option (List Nat)) : Bool :=
  match device with
  | none => false
  | some room => (write_lines lines { name := name, accept := room, calls := [] }).1

/-- The common shape of `csv_gdpdu_export_splits`, `csv_gdpdu_export_transactions` and
`csv_gdpdu_export_accounts`: open the file, write the lines, close the file; raise the failure
flag when the file does not open or a line is not written. -/
def export_table (name : Str) (lines : List Str) (info : CsvExportInfo) (fs : FileSystem) :
    CsvExportInfo × FileSystem :=
  ({ info with failed := info.failed || !table_ok name lines (fs.device name) },
    { fs with
      fopen_log := fs.fopen_log ++ [name]
      closed := (table_stream name lines (fs.device name)).toList ++ fs.closed })

/-- The name of the splits file: base path, suffix, `.csv`. -/
def splits_file_name (base : Str) : Str := base ++ "_splits".toList ++ ".csv".toList

/-- The name of the transactions file: base path, suffix, `.csv`. -/
def transactions_file_name (base : Str) : Str := base ++ "_transactions".toList ++ ".csv".toList

/-- The name of the accounts file: base path, suffix, `.csv`. -/
def accounts_file_name (base : Str) : Str := base ++ "_accounts".toList ++ ".csv".toList

/-- The streams closed between two states of the file system, the latest first. -/
def closed_since (before after : FileSystem) : List FILE :=
  after.closed.take (after.closed.length - before.closed.length)

/-! ## An example ledger -/

/-- The root account of the example ledger. -/
def example_root : Account :=
  .mk ⟨['R', '0']⟩ none none ['R', 'o', 'o', 't'] []

/-- The account "Checking" right under the root account, without a code. -/
def example_checking : Account :=
  .mk ⟨['A', '1']⟩ (some example_root) none "Checking".toList "Checking".toList

/-- The transaction of 2024-01-01 with the description `Deposit; funds`, without number and
document link. -/
def example_transaction : Transaction :=
  .mk ⟨['T', '1']⟩ none "2024-01-01".toList "2024-01-02".toList none
    (some "Deposit; funds".toList) none false

/-- The split of 100.00 with the memo `He said "hi"`. -/
def example_split : Split where
  guid := ⟨['S', '1']⟩
  parent := example_transaction
  account := some example_checking
  print_amount := fun _ => "100.00".toList
  print_void_former_amount := fun _ => "0.00".toList
  action := []
  memo := some ['H', 'e', ' ', 's', 'a', 'i', 'd', ' ', '"', 'h', 'i', '"']

/-- A blank split: the example split without account. -/
def example_blank_split : Split := { example_split with account := none }

/-- The example ledger: a blank split and two splits with an account, one transaction, one
account. -/
def example_book : QofBook where
  splits := [example_blank_split, example_split, example_split]
  transactions := [example_transaction]
  accounts := [example_checking]

/-- A configuration as the assistant may hand it over: base path `out`, another delimiter, a
stale failure flag. -/
def example_info : CsvExportInfo where
  file_name := ['o', 'u', 't']
  separator_str := [',']
  mid_sep := [',']
  end_sep := []
  use_quotes := false
  failed := true

/-- A file system where every file opens and every write is complete. -/
def example_fs : FileSystem where
  device := fun _ => some []
  fopen_log := []
  closed := []

/-- A file system where the splits file cannot be opened. -/
def example_fs_no_splits : FileSystem where
  device := fun name => if name = splits_file_name ['o', 'u', 't'] then none else some []
  fopen_log := []
  closed := []

/-- A file system where the device takes the first line of the splits file and only three
bytes of the second. -/
def example_fs_short : FileSystem where
  device := fun name => if name = splits_file_name ['o', 'u', 't'] then some [100, 3] else some []
  fopen_log := []
  closed := []

/-- The example configuration with the mode "fields are always quoted" switched on. -/
def example_info_always_quote : CsvExportInfo := { example_info with use_quotes := true }

/-! ## Properties -/

/-! ### The field escaper -/

theorem g_strsplit_scan_ne_nil (delimiter : Str) (cuts : Option Nat) (skip : Nat) (cur s : Str) :
    g_strsplit_scan delimiter cuts skip cur s ≠ [] := by
  induction s generalizing cuts skip cur with
  | nil => simp [g_strsplit_scan]
  | cons c rest ih =>
    cases skip with
    | succ k => simpa [g_strsplit_scan] using ih cuts k cur
    | zero =>
      cases cuts with
      | none =>
        simp only [g_strsplit_scan]
        split
        · simp
        · exact ih _ _ _
      | some n =>
        cases n with
        | zero => simp [g_strsplit_scan]
        | succ m =>
          simp only [g_strsplit_scan]
          split
          · simp
          · exact ih _ _ _

theorem g_strjoinv_cons_of_ne_nil (separator s : Str) (l : List Str) (h : l ≠ []) :
    g_strjoinv separator (s :: l) = s ++ separator ++ g_strjoinv separator l := by
  cases l with
  | nil => exact absurd rfl h
  | cons t rest => rfl

theorem g_strjoinv_scan_quote (cur s : Str) :
    g_strjoinv ['"', '"'] (g_strsplit_scan ['"'] none 0 cur s) = cur.reverse ++ double_quotes s := by
  induction s generalizing cur with
  | nil => simp [g_strsplit_scan, g_strjoinv, double_quotes]
  | cons c rest ih =>
    simp only [g_strsplit_scan]
    by_cases hc : c = '"'
    · subst hc
      simp [g_strjoinv_cons_of_ne_nil _ _ _ (g_strsplit_scan_ne_nil _ _ _ _ _), ih, double_quotes]
    · have : List.isPrefixOf ['"'] (c :: rest) = false := by
        simp [List.isPrefixOf, hc, Ne.symm hc]
      simp [this, ih, double_quotes, hc]

theorem g_strjoinv_g_strsplit_quote (s : Str) :
    g_strjoinv ['"', '"'] (g_strsplit s ['"'] (-1)) = double_quotes s := by
  unfold g_strsplit
  by_cases hs : s = []
  · subst hs; simp [g_strjoinv, double_quotes]
  · simp [hs, g_strjoinv_scan_quote]

theorem g_strrstr_isSome_iff (haystack needle : Str) :
    (g_strrstr haystack needle).isSome = true ↔ needle <:+: haystack := by
  unfold g_strrstr strlen
  by_cases hn : needle.length = 0
  · have : needle = [] := List.length_eq_zero.mp hn
    subst this
    simp
  · simp only [hn, if_false]
    by_cases hlt : haystack.length < needle.length
    · simp only [hlt, if_true]
      constructor
      · intro h; simp at h
      · intro h
        have := h.length_le
        omega
    · simp only [hlt, if_false, List.find?_isSome]
      constructor
      · rintro ⟨p, _, hp⟩
        have hp' : needle <+: haystack.drop p := List.isPrefixOf_iff_prefix.mp hp
        exact hp'.isInfix.trans (List.drop_suffix p haystack).isInfix
      · rintro ⟨a, b, hab⟩
        refine ⟨a.length, ?_, ?_⟩
        · simp only [List.mem_reverse, List.mem_range]
          have := congrArg List.length hab
          simp at this
          omega
        · apply List.isPrefixOf_iff_prefix.mpr
          subst hab
          simp [List.append_assoc]

theorem singleton_sublist_iff_mem (c : Char) (s : Str) : [c] <:+: s ↔ c ∈ s := by
  constructor
  · rintro ⟨a, b, h⟩
    subst h
    simp
  · intro h
    obtain ⟨a, b, h⟩ := List.append_of_mem h
    exact ⟨a, b, by simp [h]⟩

theorem csv_txn_test_field_string_eq (info : CsvExportInfo) (text : Str) :
    csv_txn_test_field_string info text =
      escaped_field info.separator_str info.use_quotes text := by
  unfold csv_txn_test_field_string escaped_field
  simp only [g_strjoinv_g_strsplit_quote, g_strrstr_isSome_iff, singleton_sublist_iff_mem,
    g_strconcat, g_strdup]
  cases info.use_quotes <;>
  by_cases h1 : info.separator_str <:+: double_quotes text <;>
  by_cases h2 : '\n' ∈ double_quotes text <;>
  by_cases h3 : '"' ∈ double_quotes text <;> simp [h1, h2, h3]

/-! ### The lines of the three tables -/

theorem g_strconcat_three (a b c : Str) : g_strconcat [a, b, c] = a ++ b ++ c := by
  simp [g_strconcat]

theorem g_strconcat_two (a b : Str) : g_strconcat [a, b] = a ++ b := by
  simp [g_strconcat]

@[simp] theorem csv_gdpdu_export_setup_mid_sep (info : CsvExportInfo) :
    (csv_gdpdu_export_setup info).mid_sep = [';'] := rfl

@[simp] theorem csv_gdpdu_export_setup_separator_str (info : CsvExportInfo) :
    (csv_gdpdu_export_setup info).separator_str = [';'] := rfl

@[simp] theorem csv_gdpdu_export_setup_use_quotes (info : CsvExportInfo) :
    (csv_gdpdu_export_setup info).use_quotes = info.use_quotes := rfl

@[simp] theorem csv_gdpdu_export_setup_failed (info : CsvExportInfo) :
    (csv_gdpdu_export_setup info).failed = false := rfl

@[simp] theorem csv_gdpdu_export_setup_file_name (info : CsvExportInfo) :
    (csv_gdpdu_export_setup info).file_name = info.file_name := rfl

theorem write_splits_table_line_eq (info : CsvExportInfo) (split : Split) (account : Account) :
    write_splits_table_line info split account =
      guid_to_string (xaccSplitGetGUID split) ++ info.mid_sep
        ++ (guid_to_string (xaccTransGetGUID (xaccSplitGetParent split)) ++ info.mid_sep)
        ++ (guid_to_string (xaccAccountGetGUID account) ++ info.mid_sep)
        ++ (csv_txn_test_field_string info
              (if xaccTransGetVoidStatus (xaccSplitGetParent split)
                then split.print_void_former_amount false else split.print_amount false)
            ++ info.mid_sep)
        ++ (csv_txn_test_field_string info (xaccSplitGetAction split) ++ info.mid_sep)
        ++ (csv_txn_test_field_string info ((xaccSplitGetMemo split).getD []) ++ info.mid_sep)
        ++ EOLSTR := by
  simp only [write_splits_table_line, write_split_guid, write_transaction_guid,
    write_account_guid, write_split_amount, write_split_action, write_split_memo,
    write_end_seperator, g_strconcat_three, g_strconcat_two, g_strdup, List.nil_append,
    List.append_assoc]
  cases h : split.memo <;> simp [xaccSplitGetMemo, h]

theorem write_transactions_table_line_eq (info : CsvExportInfo) (trans : Transaction) :
    write_transactions_table_line info trans =
      guid_to_string (xaccTransGetGUID trans) ++ info.mid_sep
        ++ (((xaccTransGetReversedBy trans).map
              (fun reversedBy => guid_to_string (xaccTransGetGUID reversedBy))).getD []
            ++ info.mid_sep)
        ++ (print_date_posted trans ++ info.mid_sep)
        ++ (print_date_entered trans ++ info.mid_sep)
        ++ (csv_txn_test_field_string info ((xaccTransGetNum trans).getD []) ++ info.mid_sep)
        ++ (csv_txn_test_field_string info ((xaccTransGetDescription trans).getD [])
            ++ info.mid_sep)
        ++ (csv_txn_test_field_string info ((xaccTransGetDocLink trans).getD []) ++ info.mid_sep)
        ++ EOLSTR := by
  obtain ⟨guid, reversed_by, posted, entered, num, description, doclink, void⟩ := trans
  simp only [write_transactions_table_line, write_transaction_guid,
    write_transaction_reversedby_guid, write_transaction_date_posted,
    write_transaction_date_entered, write_transaction_number, write_transaction_description,
    write_transaction_doclink,
    write_end_seperator, g_strconcat_three, g_strconcat_two, g_strdup, List.nil_append,
    List.append_assoc]
  cases reversed_by <;> cases num <;> cases description <;> cases doclink <;>
    simp [xaccTransGetReversedBy, xaccTransGetNum, xaccTransGetDescription, xaccTransGetDocLink]


theorem write_account_parent_guid_eq (so_far : Str) (account : Account) (info : CsvExportInfo) :
    write_account_parent_guid so_far account info
      = so_far ++ parent_guid_column account ++ info.mid_sep := by
  obtain ⟨guid, parent, code, name, full_name⟩ := account
  cases parent with
  | none => simp [write_account_parent_guid, parent_guid_column, g_strconcat_two]
  | some parent =>
    obtain ⟨pguid, pparent, pcode, pname, pfull_name⟩ := parent
    cases pparent <;>
      simp [write_account_parent_guid, parent_guid_column, g_strconcat_two, g_strconcat_three]

theorem write_accounts_table_line_eq (info : CsvExportInfo) (account : Account) :
    write_accounts_table_line info account =
      guid_to_string (xaccAccountGetGUID account) ++ info.mid_sep
        ++ (parent_guid_column account ++ info.mid_sep)
        ++ (csv_txn_test_field_string info ((xaccAccountGetCode account).getD [])
            ++ info.mid_sep)
        ++ (csv_txn_test_field_string info (xaccAccountGetName account) ++ info.mid_sep)
        ++ (csv_txn_test_field_string info (gnc_account_get_full_name account) ++ info.mid_sep)
        ++ EOLSTR := by
  simp only [write_accounts_table_line, write_account_parent_guid_eq]
  obtain ⟨guid, parent, code, name, full_name⟩ := account
  simp only [write_account_guid, write_account_code, write_account_name,
    write_end_seperator, g_strconcat_three, g_strconcat_two, g_strdup, List.nil_append,
    List.append_assoc]
  cases code <;> simp [xaccAccountGetCode]

/-- C1: with the configuration `csv_gdpdu_export` sets, the line built for a split, for a
transaction and for an account is each field of the table, in the order of the table, followed
by the delimiter `;` (the last field too), then CRLF and nothing else. Text fields and the
amount go through the field escaper, absent optional values are the empty string. -/
theorem row_is_fields_with_delimiter_then_crlf (info : CsvExportInfo) :
    (∀ (split : Split) (account : Account),
      write_splits_table_line (csv_gdpdu_export_setup info) split account =
        gdpdu_row
          [guid_to_string (xaccSplitGetGUID split),
           guid_to_string (xaccTransGetGUID (xaccSplitGetParent split)),
           guid_to_string (xaccAccountGetGUID account),
           csv_txn_test_field_string (csv_gdpdu_export_setup info)
             (if xaccTransGetVoidStatus (xaccSplitGetParent split)
               then split.print_void_former_amount false else split.print_amount false),
           csv_txn_test_field_string (csv_gdpdu_export_setup info) (xaccSplitGetAction split),
           csv_txn_test_field_string (csv_gdpdu_export_setup info)
             ((xaccSplitGetMemo split).getD [])]) ∧
    (∀ trans : Transaction,
      write_transactions_table_line (csv_gdpdu_export_setup info) trans =
        gdpdu_row
          [guid_to_string (xaccTransGetGUID trans),
           ((xaccTransGetReversedBy trans).map
              (fun reversedBy => guid_to_string (xaccTransGetGUID reversedBy))).getD [],
           print_date_posted trans,
           print_date_entered trans,
           csv_txn_test_field_string (csv_gdpdu_export_setup info)
             ((xaccTransGetNum trans).getD []),
           csv_txn_test_field_string (csv_gdpdu_export_setup info)
             ((xaccTransGetDescription trans).getD []),
           csv_txn_test_field_string (csv_gdpdu_export_setup info)
             ((xaccTransGetDocLink trans).getD [])]) ∧
    (∀ account : Account,
      write_accounts_table_line (csv_gdpdu_export_setup info) account =
        gdpdu_row
          [guid_to_string (xaccAccountGetGUID account),
           parent_guid_column account,
           csv_txn_test_field_string (csv_gdpdu_export_setup info)
             ((xaccAccountGetCode account).getD []),
           csv_txn_test_field_string (csv_gdpdu_export_setup info) (xaccAccountGetName account),
           csv_txn_test_field_string (csv_gdpdu_export_setup info)
             (gnc_account_get_full_name account)]) := by
  refine ⟨fun split account => ?_, fun trans => ?_, fun account => ?_⟩
  · rw [write_splits_table_line_eq]
    simp [gdpdu_row, EOLSTR]
  · rw [write_transactions_table_line_eq]
    simp [gdpdu_row, EOLSTR]
  · rw [write_accounts_table_line_eq]
    simp [gdpdu_row, EOLSTR]

/-- C2: for every text and every delimiter the field escaper returns the text with every
quote doubled, inside one leading and one trailing quote exactly when the doubled text contains
the delimiter, a newline or a quote and the configuration is not in "always quote" mode, and
the doubled text alone in every other case. -/
theorem csv_txn_test_field_string_doubles_and_wraps (info : CsvExportInfo) (text : Str) :
    csv_txn_test_field_string info text =
      if (info.separator_str <:+: double_quotes text ∨ '\n' ∈ double_quotes text
            ∨ '"' ∈ double_quotes text) ∧ info.use_quotes = false then
        ['"'] ++ double_quotes text ++ ['"']
      else double_quotes text :=
  csv_txn_test_field_string_eq info text

/-! ### Reading an escaped field back -/

theorem double_quotes_cons (c : Char) (s : Str) :
    double_quotes (c :: s) = (if c = '"' then ['"', '"'] else [c]) ++ double_quotes s := by
  simp [double_quotes]

theorem csv_collapse_double_quotes (s : Str) : csv_collapse (double_quotes s) = s := by
  induction s with
  | nil => simp [double_quotes, csv_collapse]
  | cons c s ih =>
    rw [double_quotes_cons]
    by_cases hc : c = '"'
    · simp [hc, csv_collapse, ih]
    · simp only [hc, if_false, List.singleton_append]
      cases h : double_quotes s with
      | nil => rw [h] at ih; simp [csv_collapse, ← ih]
      | cons d rest =>
        rw [h] at ih
        simp [csv_collapse, hc, ih]

theorem quote_mem_double_quotes (s : Str) : '"' ∈ double_quotes s ↔ '"' ∈ s := by
  induction s with
  | nil => simp [double_quotes]
  | cons c s ih =>
    rw [double_quotes_cons]
    by_cases hc : c = '"'
    · simp [hc]
    · simp [hc, ih, Ne.symm hc]

theorem double_quotes_of_not_mem (s : Str) (h : '"' ∉ s) : double_quotes s = s := by
  induction s with
  | nil => simp [double_quotes]
  | cons c s ih =>
    rw [double_quotes_cons]
    simp only [List.mem_cons, not_or] at h
    simp [Ne.symm h.1, ih h.2]

theorem csv_split_scan_quoted (s cur rest : Str) :
    csv_split_scan true cur (double_quotes s ++ rest)
      = csv_split_scan true ((double_quotes s).reverse ++ cur) rest := by
  induction s generalizing cur with
  | nil => simp [double_quotes]
  | cons c s ih =>
    rw [double_quotes_cons]
    by_cases hc : c = '"'
    · simp [hc, csv_split_scan, ih]
    · simp [hc, csv_split_scan, ih]

theorem csv_split_scan_plain (f cur rest : Str) (hq : '"' ∉ f) (hd : ';' ∉ f) :
    csv_split_scan false cur (f ++ rest) = csv_split_scan false (f.reverse ++ cur) rest := by
  induction f generalizing cur with
  | nil => simp
  | cons c f ih =>
    simp only [List.mem_cons, not_or] at hq hd
    simp [csv_split_scan, Ne.symm hq.1, Ne.symm hd.1, ih _ hq.2 hd.2]

theorem csv_split_scan_wrapped (s rest : Str) :
    csv_split_scan false [] (['"'] ++ double_quotes s ++ ['"'] ++ rest)
      = csv_split_scan false (['"'] ++ double_quotes s ++ ['"']).reverse rest := by
  simp [csv_split_scan, csv_split_scan_quoted]

theorem csv_unquote_wrapped (s : Str) :
    csv_unquote (['"'] ++ double_quotes s ++ ['"']) = s := by
  simp [csv_unquote, csv_collapse_double_quotes]

theorem csv_unquote_plain (f : Str) (hq : '"' ∉ f) : csv_unquote f = f := by
  cases f with
  | nil => rfl
  | cons c f =>
    simp only [List.mem_cons, not_or] at hq
    simp [csv_unquote, Ne.symm hq.1]

/-- C3, as amended: with the delimiter `;` and a configuration that is not in "always quote"
mode, the output of the field escaper for any field (in particular one containing the
delimiter, a quote or a newline), split at the delimiters outside quoted regions and unquoted,
is exactly one field, equal to the original field. -/
theorem escaped_field_reads_back (info : CsvExportInfo) (field : Str)
    (hsep : info.separator_str = [';']) (hmode : info.use_quotes = false) :
    (csv_split (csv_txn_test_field_string info field)).map csv_unquote = [field] := by
  rw [csv_txn_test_field_string_eq, hsep, hmode]
  unfold escaped_field
  simp only [singleton_sublist_iff_mem, and_true]
  split
  · have := csv_split_scan_wrapped field []
    simp only [List.append_nil] at this
    rw [csv_split, this]
    simp only [csv_split_scan, List.reverse_reverse, List.map_cons, List.map_nil,
      csv_unquote_wrapped]
  · rename_i h
    simp only [not_or] at h
    have hq : '"' ∉ field := fun hf => h.2.2 ((quote_mem_double_quotes field).mpr hf)
    rw [double_quotes_of_not_mem field hq] at h ⊢
    have := csv_split_scan_plain field [] [] hq h.1
    simp only [List.append_nil] at this
    rw [csv_split, this]
    simp [csv_split_scan, csv_unquote_plain field hq]

/-- C3, witness: the amended statement at the field `a;"b`. -/
theorem escaped_field_reads_back_witness :
    (csv_split (csv_txn_test_field_string ⟨[], [';'], [';'], ['"'], false, false⟩
      ['a', ';', '"', 'b'])).map csv_unquote = [['a', ';', '"', 'b']] :=
  escaped_field_reads_back ⟨[], [';'], [';'], ['"'], false, false⟩ ['a', ';', '"', 'b'] rfl rfl

/-- C3, counterexample: in "always quote" mode the escaper leaves the field `a;b` unwrapped, and
it reads back as the two fields `a` and `b`. -/
theorem escaped_field_always_quote_mode_not_read_back :
    ¬ ((csv_split (csv_txn_test_field_string ⟨[], [';'], [';'], ['"'], true, false⟩
      ['a', ';', 'b'])).map csv_unquote = [['a', ';', 'b']]) := by
  decide

/-! ### The loops of the table writers -/

theorem write_splits_table_loop_eq (info : CsvExportInfo) (splits : List Split) (fh : FILE) :
    write_splits_table_loop info splits fh =
      ({ info with failed := info.failed || !(write_lines (splits_table_lines info splits) fh).1 },
        (write_lines (splits_table_lines info splits) fh).2) := by
  induction splits generalizing fh with
  | nil => simp [write_splits_table_loop, splits_table_lines, write_lines]
  | cons split splits ih =>
    cases hacc : split.account with
    | none =>
      simp only [write_splits_table_loop, xaccSplitGetAccount, hacc, ih]
      simp [splits_table_lines, hacc]
    | some account =>
      simp only [write_splits_table_loop, xaccSplitGetAccount, hacc]
      have hl : splits_table_lines info (split :: splits)
          = write_splits_table_line info split account :: splits_table_lines info splits := by
        simp [splits_table_lines, hacc]
      rw [hl]
      simp only [write_lines]
      rcases h : write_line_to_file fh (write_splits_table_line info split account) with ⟨ok, fh1⟩
      cases ok
      · simp
      · simp [ih]

theorem write_transactions_table_loop_eq (info : CsvExportInfo) (transactions : List Transaction)
    (fh : FILE) :
    write_transactions_table_loop info transactions fh =
      ({ info with
          failed := info.failed
            || !(write_lines (transactions_table_lines info transactions) fh).1 },
        (write_lines (transactions_table_lines info transactions) fh).2) := by
  induction transactions generalizing fh with
  | nil => simp [write_transactions_table_loop, transactions_table_lines, write_lines]
  | cons transaction transactions ih =>
    simp only [write_transactions_table_loop, transactions_table_lines, List.map_cons,
      write_lines]
    rcases h : write_line_to_file fh (write_transactions_table_line info transaction)
      with ⟨ok, fh1⟩
    cases ok
    · simp
    · simpa [transactions_table_lines] using ih fh1

theorem write_accounts_table_loop_eq (info : CsvExportInfo) (accounts : List Account)
    (fh : FILE) :
    write_accounts_table_loop info accounts fh =
      ({ info with
          failed := info.failed || !(write_lines (accounts_table_lines info accounts) fh).1 },
        (write_lines (accounts_table_lines info accounts) fh).2) := by
  induction accounts generalizing fh with
  | nil => simp [write_accounts_table_loop, accounts_table_lines, write_lines]
  | cons account accounts ih =>
    simp only [write_accounts_table_loop, accounts_table_lines, List.map_cons, write_lines]
    rcases h : write_line_to_file fh (write_accounts_table_line info account) with ⟨ok, fh1⟩
    cases ok
    · simp
    · simpa [accounts_table_lines] using ih fh1

theorem write_line_to_file_eq (fh : FILE) (line : Str) :
    write_line_to_file fh line =
      (decide ((fwrite line (strlen line) fh).1 = strlen line), (fwrite line (strlen line) fh).2) := by
  unfold write_line_to_file
  by_cases h : (fwrite line (strlen line) fh).1 = strlen line <;> simp [h]

theorem write_lines_name (lines : List Str) (fh : FILE) :
    (write_lines lines fh).2.name = fh.name := by
  induction lines generalizing fh with
  | nil => rfl
  | cons line lines ih =>
    simp only [write_lines, write_line_to_file_eq]
    by_cases h : (fwrite line (strlen line) fh).1 = strlen line
    · simp only [h, decide_True]
      rw [ih]
      rfl
    · simp only [h, decide_False]
      rfl

/-- When the device takes all the lines, all of them are written, each in full. -/
theorem write_lines_of_takes (lines : List Str) (fh : FILE) (h : takes fh.accept lines = true) :
    write_lines lines fh =
      (true, { fh with
        accept := fh.accept.drop lines.length
        calls := fh.calls ++ lines.map (fun line => (line, strlen line)) }) := by
  induction lines generalizing fh with
  | nil => simp [write_lines]
  | cons line lines ih =>
    obtain ⟨name, accept, calls⟩ := fh
    cases accept with
    | nil =>
      simp only [write_lines, write_line_to_file_eq, fwrite]
      simp only [decide_True]
      rw [ih _ (by simp [takes])]
      simp
    | cons room accept =>
      simp only [takes, Bool.and_eq_true, decide_eq_true_eq] at h
      simp only [write_lines, write_line_to_file_eq, fwrite]
      have hmin : min room (strlen line) = strlen line := Nat.min_eq_right h.1
      simp only [hmin, decide_True, List.tail_cons]
      rw [ih _ h.2]
      simp

/-- When the device takes the lines before a line and not that line, the writing stops at that
line. -/
theorem write_lines_of_short (pre : List Str) (line : Str) (post : List Str) (fh : FILE)
    (room : Nat) (hpre : takes fh.accept pre = true) (hroom : fh.accept[pre.length]? = some room)
    (hshort : room < strlen line) :
    write_lines (pre ++ line :: post) fh =
      (false, { fh with
        accept := fh.accept.drop (pre.length + 1)
        calls := fh.calls ++ pre.map (fun l => (l, strlen l)) ++ [(line, room)] }) := by
  induction pre generalizing fh with
  | nil =>
    obtain ⟨name, accept, calls⟩ := fh
    cases accept with
    | nil => simp at hroom
    | cons r accept =>
      simp only [List.length_nil, List.getElem?_cons_zero, Option.some.injEq] at hroom
      subst hroom
      simp only [List.nil_append, write_lines, write_line_to_file_eq, fwrite]
      have hmin : min r (strlen line) = r := Nat.min_eq_left (Nat.le_of_lt hshort)
      have hne : ¬ r = strlen line := Nat.ne_of_lt hshort
      simp [hmin, hne]
  | cons l pre ih =>
    obtain ⟨name, accept, calls⟩ := fh
    cases accept with
    | nil => simp at hroom
    | cons r accept =>
      simp only [takes, Bool.and_eq_true, decide_eq_true_eq] at hpre
      simp only [List.length_cons, List.getElem?_cons_succ] at hroom
      have hmin : min r (strlen l) = strlen l := Nat.min_eq_right hpre.1
      have hstep : write_lines ((l :: pre) ++ line :: post)
            { name := name, accept := r :: accept, calls := calls }
          = write_lines (pre ++ line :: post)
            { name := name, accept := accept, calls := calls ++ [(l, strlen l)] } := by
        rw [List.cons_append]
        simp only [write_lines, write_line_to_file_eq, fwrite, hmin, decide_True, List.tail_cons]
      rw [hstep, ih _ hpre.2 hroom]
      simp

/-- Whatever the device does, the writes made are writes of the first lines, in order, and all
but the last one are complete; when the result is `true` all lines were written in full. -/
theorem write_lines_calls (lines : List Str) (fh : FILE) :
    ∃ n, n ≤ lines.length ∧
      (write_lines lines fh).2.calls.map Prod.fst = fh.calls.map Prod.fst ++ lines.take n ∧
      ((write_lines lines fh).1 = true →
        (write_lines lines fh).2.calls = fh.calls ++ lines.map (fun l => (l, strlen l))) := by
  induction lines generalizing fh with
  | nil => exact ⟨0, by simp [write_lines]⟩
  | cons line lines ih =>
    simp only [write_lines, write_line_to_file_eq]
    by_cases h : (fwrite line (strlen line) fh).1 = strlen line
    · simp only [h, decide_True]
      obtain ⟨n, hn, hcalls, hfull⟩ := ih (fwrite line (strlen line) fh).2
      refine ⟨n + 1, by simpa using hn, ?_, ?_⟩
      · rw [hcalls]
        simp [fwrite]
      · intro hok
        rw [hfull hok]
        have : (fwrite line (strlen line) fh).2.calls
            = fh.calls ++ [(line, (fwrite line (strlen line) fh).1)] := rfl
        rw [this, h]
        simp
    · simp only [h, decide_False]
      refine ⟨1, by simp, ?_, by simp⟩
      simp [fwrite]

/-! ### The export in closed form -/

theorem csv_txn_test_field_string_congr (info info' : CsvExportInfo)
    (hsep : info'.separator_str = info.separator_str) (hq : info'.use_quotes = info.use_quotes)
    (text : Str) :
    csv_txn_test_field_string info' text = csv_txn_test_field_string info text := by
  rw [csv_txn_test_field_string_eq, csv_txn_test_field_string_eq, hsep, hq]

theorem splits_table_lines_congr (info info' : CsvExportInfo)
    (hmid : info'.mid_sep = info.mid_sep)
    (hsep : info'.separator_str = info.separator_str) (hq : info'.use_quotes = info.use_quotes)
    (splits : List Split) :
    splits_table_lines info' splits = splits_table_lines info splits := by
  unfold splits_table_lines
  congr 1
  funext split
  congr 1
  funext account
  simp only [write_splits_table_line_eq, hmid, csv_txn_test_field_string_congr info info' hsep hq]

theorem transactions_table_lines_congr (info info' : CsvExportInfo)
    (hmid : info'.mid_sep = info.mid_sep)
    (hsep : info'.separator_str = info.separator_str) (hq : info'.use_quotes = info.use_quotes)
    (transactions : List Transaction) :
    transactions_table_lines info' transactions = transactions_table_lines info transactions := by
  unfold transactions_table_lines
  congr 1
  funext trans
  simp only [write_transactions_table_line_eq, hmid,
    csv_txn_test_field_string_congr info info' hsep hq]

theorem accounts_table_lines_congr (info info' : CsvExportInfo)
    (hmid : info'.mid_sep = info.mid_sep)
    (hsep : info'.separator_str = info.separator_str) (hq : info'.use_quotes = info.use_quotes)
    (accounts : List Account) :
    accounts_table_lines info' accounts = accounts_table_lines info accounts := by
  unfold accounts_table_lines
  congr 1
  funext account
  simp only [write_accounts_table_line_eq, hmid,
    csv_txn_test_field_string_congr info info' hsep hq]

theorem csv_gdpdu_export_splits_eq (book : QofBook) (info : CsvExportInfo) (fs : FileSystem) :
    csv_gdpdu_export_splits book info fs =
      export_table (splits_file_name info.file_name) (splits_table_lines info book.splits)
        info fs := by
  have hname : g_strconcat [info.file_name, ['_', 's', 'p', 'l', 'i', 't', 's', '.', 'c', 's', 'v']]
      = splits_file_name info.file_name := by
    simp [g_strconcat, splits_file_name]
  unfold csv_gdpdu_export_splits export_table table_ok table_stream
  simp only [hname, g_fopen, write_splits_table, write_splits_table_loop_eq]
  cases h : fs.device (splits_file_name info.file_name) with
  | none => simp [fclose]
  | some room => simp [fclose]

theorem csv_gdpdu_export_transactions_eq (book : QofBook) (info : CsvExportInfo)
    (fs : FileSystem) :
    csv_gdpdu_export_transactions book info fs =
      export_table (transactions_file_name info.file_name)
        (transactions_table_lines info book.transactions) info fs := by
  have hname : g_strconcat [info.file_name,
      ['_', 't', 'r', 'a', 'n', 's', 'a', 'c', 't', 'i', 'o', 'n', 's', '.', 'c', 's', 'v']]
      = transactions_file_name info.file_name := by
    simp [g_strconcat, transactions_file_name]
  unfold csv_gdpdu_export_transactions export_table table_ok table_stream
  simp only [hname, g_fopen, write_transactions_table, write_transactions_table_loop_eq]
  cases h : fs.device (transactions_file_name info.file_name) with
  | none => simp [fclose]
  | some room => simp [fclose]

theorem csv_gdpdu_export_accounts_eq (book : QofBook) (info : CsvExportInfo) (fs : FileSystem) :
    csv_gdpdu_export_accounts book info fs =
      export_table (accounts_file_name info.file_name) (accounts_table_lines info book.accounts)
        info fs := by
  have hname : g_strconcat [info.file_name,
      ['_', 'a', 'c', 'c', 'o', 'u', 'n', 't', 's', '.', 'c', 's', 'v']]
      = accounts_file_name info.file_name := by
    simp [g_strconcat, accounts_file_name]
  unfold csv_gdpdu_export_accounts export_table table_ok table_stream
  simp only [hname, g_fopen, write_accounts_table, write_accounts_table_loop_eq]
  cases h : fs.device (accounts_file_name info.file_name) with
  | none => simp [fclose]
  | some room => simp [fclose]

theorem splits_table_lines_failed (info : CsvExportInfo) (b : Bool) (splits : List Split) :
    splits_table_lines { info with failed := b } splits = splits_table_lines info splits :=
  splits_table_lines_congr info _ rfl rfl rfl splits

theorem transactions_table_lines_failed (info : CsvExportInfo) (b : Bool)
    (transactions : List Transaction) :
    transactions_table_lines { info with failed := b } transactions
      = transactions_table_lines info transactions :=
  transactions_table_lines_congr info _ rfl rfl rfl transactions

theorem accounts_table_lines_failed (info : CsvExportInfo) (b : Bool) (accounts : List Account) :
    accounts_table_lines { info with failed := b } accounts
      = accounts_table_lines info accounts :=
  accounts_table_lines_congr info _ rfl rfl rfl accounts

/-- The three tables one after the other, for any configuration. -/
theorem export_tables_eq (book : QofBook) (cfg : CsvExportInfo) (fs : FileSystem) :
    csv_gdpdu_export_accounts book
        (csv_gdpdu_export_transactions book (csv_gdpdu_export_splits book cfg fs).1
          (csv_gdpdu_export_splits book cfg fs).2).1
        (csv_gdpdu_export_transactions book (csv_gdpdu_export_splits book cfg fs).1
          (csv_gdpdu_export_splits book cfg fs).2).2 =
      ({ cfg with
          failed := cfg.failed ||
            !(table_ok (splits_file_name cfg.file_name)
                (splits_table_lines cfg book.splits)
                (fs.device (splits_file_name cfg.file_name))
              && table_ok (transactions_file_name cfg.file_name)
                (transactions_table_lines cfg book.transactions)
                (fs.device (transactions_file_name cfg.file_name))
              && table_ok (accounts_file_name cfg.file_name)
                (accounts_table_lines cfg book.accounts)
                (fs.device (accounts_file_name cfg.file_name))) },
        { device := fs.device
          fopen_log := fs.fopen_log ++
            [splits_file_name cfg.file_name, transactions_file_name cfg.file_name,
              accounts_file_name cfg.file_name]
          closed :=
            (table_stream (accounts_file_name cfg.file_name)
                (accounts_table_lines cfg book.accounts)
                (fs.device (accounts_file_name cfg.file_name))).toList
            ++ (table_stream (transactions_file_name cfg.file_name)
                (transactions_table_lines cfg book.transactions)
                (fs.device (transactions_file_name cfg.file_name))).toList
            ++ (table_stream (splits_file_name cfg.file_name)
                (splits_table_lines cfg book.splits)
                (fs.device (splits_file_name cfg.file_name))).toList
            ++ fs.closed }) := by
  simp only [csv_gdpdu_export_splits_eq, csv_gdpdu_export_transactions_eq,
    csv_gdpdu_export_accounts_eq, export_table, transactions_table_lines_failed,
    accounts_table_lines_failed]
  simp [Bool.not_and, List.append_assoc, Bool.or_assoc]

/-- The export in closed form: the configuration is set, then the three tables are written to
their files one after the other, each on its own stream; the failure flag is raised when one
of them does not go through. -/
theorem csv_gdpdu_export_eq (book : QofBook) (info : CsvExportInfo) (fs : FileSystem) :
    csv_gdpdu_export book info fs =
      ({ csv_gdpdu_export_setup info with
          failed :=
            !(table_ok (splits_file_name info.file_name)
                (splits_table_lines (csv_gdpdu_export_setup info) book.splits)
                (fs.device (splits_file_name info.file_name))
              && table_ok (transactions_file_name info.file_name)
                (transactions_table_lines (csv_gdpdu_export_setup info) book.transactions)
                (fs.device (transactions_file_name info.file_name))
              && table_ok (accounts_file_name info.file_name)
                (accounts_table_lines (csv_gdpdu_export_setup info) book.accounts)
                (fs.device (accounts_file_name info.file_name))) },
        { device := fs.device
          fopen_log := fs.fopen_log ++
            [splits_file_name info.file_name, transactions_file_name info.file_name,
              accounts_file_name info.file_name]
          closed :=
            (table_stream (accounts_file_name info.file_name)
                (accounts_table_lines (csv_gdpdu_export_setup info) book.accounts)
                (fs.device (accounts_file_name info.file_name))).toList
            ++ (table_stream (transactions_file_name info.file_name)
                (transactions_table_lines (csv_gdpdu_export_setup info) book.transactions)
                (fs.device (transactions_file_name info.file_name))).toList
            ++ (table_stream (splits_file_name info.file_name)
                (splits_table_lines (csv_gdpdu_export_setup info) book.splits)
                (fs.device (splits_file_name info.file_name))).toList
            ++ fs.closed }) := by
  have h := export_tables_eq book (csv_gdpdu_export_setup info) fs
  simp only [csv_gdpdu_export_setup_file_name, csv_gdpdu_export_setup_failed,
    Bool.false_or] at h
  exact h

/-! ### Files opened and the failure flag -/

theorem splits_ne_transactions (base : Str) :
    splits_file_name base ≠ transactions_file_name base := by
  simp only [splits_file_name, transactions_file_name, List.append_assoc, ne_eq,
    List.append_cancel_left_eq]
  decide

theorem splits_ne_accounts (base : Str) : splits_file_name base ≠ accounts_file_name base := by
  simp only [splits_file_name, accounts_file_name, List.append_assoc, ne_eq,
    List.append_cancel_left_eq]
  decide

theorem transactions_ne_accounts (base : Str) :
    transactions_file_name base ≠ accounts_file_name base := by
  simp only [transactions_file_name, accounts_file_name, List.append_assoc, ne_eq,
    List.append_cancel_left_eq]
  decide

theorem table_stream_name (name : Str) (lines : List Str) (device : Option (List Nat))
    (fh : FILE) (h : table_stream name lines device = some fh) : fh.name = name := by
  cases device with
  | none => simp [table_stream] at h
  | some room =>
    simp only [table_stream, Option.map_some', Option.some.injEq] at h
    rw [← h, write_lines_name]

theorem table_ok_of_none (name : Str) (lines : List Str) : table_ok name lines none = false := rfl

theorem table_ok_false_of_short (name : Str) (lines : List Str) (device : Option (List Nat))
    (fh : FILE) (h : table_stream name lines device = some fh) (call : Str × Nat)
    (hcall : call ∈ fh.calls) (hshort : call.2 < strlen call.1) :
    table_ok name lines device = false := by
  cases device with
  | none => rfl
  | some room =>
    simp only [table_stream, Option.map_some', Option.some.injEq] at h
    simp only [table_ok]
    by_contra hok
    simp only [Bool.not_eq_false] at hok
    obtain ⟨n, _, _, hfull⟩ := write_lines_calls lines { name := name, accept := room, calls := [] }
    have hc := hfull hok
    rw [h] at hc
    rw [hc] at hcall
    simp only [List.nil_append, List.mem_map] at hcall
    obtain ⟨l, _, hl⟩ := hcall
    rw [← hl] at hshort
    exact Nat.lt_irrefl _ hshort

theorem table_ok_true_of_takes (name : Str) (lines : List Str) (room : List Nat)
    (h : takes room lines = true) : table_ok name lines (some room) = true := by
  simp only [table_ok]
  rw [write_lines_of_takes lines _ h]

theorem closed_since_csv_gdpdu_export (book : QofBook) (info : CsvExportInfo) (fs : FileSystem) :
    closed_since fs (csv_gdpdu_export book info fs).2 =
      (table_stream (accounts_file_name info.file_name)
          (accounts_table_lines (csv_gdpdu_export_setup info) book.accounts)
          (fs.device (accounts_file_name info.file_name))).toList
      ++ (table_stream (transactions_file_name info.file_name)
          (transactions_table_lines (csv_gdpdu_export_setup info) book.transactions)
          (fs.device (transactions_file_name info.file_name))).toList
      ++ (table_stream (splits_file_name info.file_name)
          (splits_table_lines (csv_gdpdu_export_setup info) book.splits)
          (fs.device (splits_file_name info.file_name))).toList := by
  rw [csv_gdpdu_export_eq]
  simp only [closed_since]
  rw [List.take_left']
  simp only [List.length_append]
  omega

/-- C9: for every base path the export opens exactly three files, `P_splits.csv`,
`P_transactions.csv` and `P_accounts.csv`, in this order (base path, suffix, `.csv`), and the
three names are pairwise distinct. -/
theorem csv_gdpdu_export_opens_three_files (book : QofBook) (info : CsvExportInfo)
    (fs : FileSystem) :
    (csv_gdpdu_export book info fs).2.fopen_log =
        fs.fopen_log ++
          [info.file_name ++ "_splits".toList ++ ".csv".toList,
           info.file_name ++ "_transactions".toList ++ ".csv".toList,
           info.file_name ++ "_accounts".toList ++ ".csv".toList] ∧
      info.file_name ++ "_splits".toList ++ ".csv".toList
        ≠ info.file_name ++ "_transactions".toList ++ ".csv".toList ∧
      info.file_name ++ "_splits".toList ++ ".csv".toList
        ≠ info.file_name ++ "_accounts".toList ++ ".csv".toList ∧
      info.file_name ++ "_transactions".toList ++ ".csv".toList
        ≠ info.file_name ++ "_accounts".toList ++ ".csv".toList := by
  refine ⟨?_, splits_ne_transactions _, splits_ne_accounts _, transactions_ne_accounts _⟩
  rw [csv_gdpdu_export_eq]
  rfl

/-- C5: after `csv_gdpdu_export` the failure flag is true if one of the three output files
could not be opened, or if one of the `fwrite` calls on a stream of this export wrote fewer
bytes than requested. -/
theorem csv_gdpdu_export_failed_of_failure (book : QofBook) (info : CsvExportInfo)
    (fs : FileSystem)
    (h : (∃ name ∈ [splits_file_name info.file_name, transactions_file_name info.file_name,
              accounts_file_name info.file_name], fs.device name = none) ∨
         (∃ fh ∈ closed_since fs (csv_gdpdu_export book info fs).2,
            ∃ call ∈ fh.calls, call.2 < strlen call.1)) :
    (csv_gdpdu_export book info fs).1.failed = true := by
  rw [closed_since_csv_gdpdu_export] at h
  rw [csv_gdpdu_export_eq]
  simp only [Bool.not_eq_true', Bool.and_eq_false_iff]
  rcases h with ⟨name, hname, hdev⟩ | ⟨fh, hfh, call, hcall, hshort⟩
  · simp only [List.mem_cons, List.mem_singleton, List.not_mem_nil, or_false] at hname
    rcases hname with rfl | rfl | rfl
    · left; left; rw [hdev]; rfl
    · left; right; rw [hdev]; rfl
    · right; rw [hdev]; rfl
  · simp only [List.mem_append, Option.mem_toList, Option.mem_def] at hfh
    rcases hfh with (hfh | hfh) | hfh
    · right; exact table_ok_false_of_short _ _ _ fh hfh call hcall hshort
    · left; right; exact table_ok_false_of_short _ _ _ fh hfh call hcall hshort
    · left; left; exact table_ok_false_of_short _ _ _ fh hfh call hcall hshort

/-- C5, witness: with a device that takes only three bytes of the second line of the splits
file, the failure flag is true after the export. -/
theorem csv_gdpdu_export_failed_of_failure_witness :
    (csv_gdpdu_export example_book example_info example_fs_short).1.failed = true :=
  csv_gdpdu_export_failed_of_failure example_book example_info example_fs_short
    (Or.inr (by decide))

/-! ### The tables are independent of each other -/

theorem find_toList_append_of_name_ne (name other : Str) (lines : List Str)
    (device : Option (List Nat)) (rest : List FILE) (hne : other ≠ name) :
    ((table_stream other lines device).toList ++ rest).find? (fun fh => fh.name = name)
      = rest.find? (fun fh => fh.name = name) := by
  cases h : table_stream other lines device with
  | none => simp
  | some fh =>
    have hn := table_stream_name _ _ _ _ h
    simp [hn, hne]

theorem find_toList_append_of_some (name : Str) (lines : List Str) (room : List Nat)
    (rest : List FILE) :
    ((table_stream name lines (some room)).toList ++ rest).find? (fun fh => fh.name = name)
      = table_stream name lines (some room) := by
  cases h : table_stream name lines (some room) with
  | none => simp [table_stream] at h
  | some fh =>
    have hn := table_stream_name _ _ _ _ h
    simp [hn]

theorem file_transactions_csv_gdpdu_export (book : QofBook) (info : CsvExportInfo)
    (fs : FileSystem) :
    (csv_gdpdu_export book info fs).2.file (transactions_file_name info.file_name) =
      match fs.device (transactions_file_name info.file_name) with
      | some room =>
        table_stream (transactions_file_name info.file_name)
          (transactions_table_lines (csv_gdpdu_export_setup info) book.transactions) (some room)
      | none => fs.file (transactions_file_name info.file_name) := by
  rw [csv_gdpdu_export_eq]
  simp only [FileSystem.file, List.append_assoc]
  rw [find_toList_append_of_name_ne _ _ _ _ _ (transactions_ne_accounts _).symm]
  cases h : fs.device (transactions_file_name info.file_name) with
  | some room => simp only [find_toList_append_of_some]
  | none =>
    have hnone : ∀ name lines, table_stream name lines none = none := fun _ _ => rfl
    rw [hnone]
    simp only [Option.toList_none, List.nil_append]
    rw [find_toList_append_of_name_ne _ _ _ _ _ (splits_ne_transactions _)]

theorem file_accounts_csv_gdpdu_export (book : QofBook) (info : CsvExportInfo)
    (fs : FileSystem) :
    (csv_gdpdu_export book info fs).2.file (accounts_file_name info.file_name) =
      match fs.device (accounts_file_name info.file_name) with
      | some room =>
        table_stream (accounts_file_name info.file_name)
          (accounts_table_lines (csv_gdpdu_export_setup info) book.accounts) (some room)
      | none => fs.file (accounts_file_name info.file_name) := by
  rw [csv_gdpdu_export_eq]
  simp only [FileSystem.file, List.append_assoc]
  cases h : fs.device (accounts_file_name info.file_name) with
  | some room => simp only [find_toList_append_of_some]
  | none =>
    have hnone : ∀ name lines, table_stream name lines none = none := fun _ _ => rfl
    rw [hnone]
    simp only [Option.toList_none, List.nil_append]
    rw [find_toList_append_of_name_ne _ _ _ _ _ (transactions_ne_accounts _),
      find_toList_append_of_name_ne _ _ _ _ _ (splits_ne_accounts _)]

theorem write_transactions_table_stream (book : QofBook) (info : CsvExportInfo) (fh : FILE) :
    (write_transactions_table book info fh).2
      = (write_lines (transactions_table_lines info book.transactions) fh).2 := by
  simp [write_transactions_table, write_transactions_table_loop_eq]

theorem write_accounts_table_stream (book : QofBook) (info : CsvExportInfo) (fh : FILE) :
    (write_accounts_table book info fh).2
      = (write_lines (accounts_table_lines info book.accounts) fh).2 := by
  simp [write_accounts_table, write_accounts_table_loop_eq]

theorem write_splits_table_stream (book : QofBook) (info : CsvExportInfo) (fh : FILE) :
    (write_splits_table book info fh).2
      = (write_lines (splits_table_lines info book.splits) fh).2 := by
  simp [write_splits_table, write_splits_table_loop_eq]

/-- C6: if the splits file cannot be opened, the failure flag is true after the export and the
transactions file and the accounts file are the same as in a run where the splits file opens
(whatever its device takes). More generally, whatever fails, the export opens the three files
one after the other, and a later file that opens is exactly what its table writer writes to a
fresh stream. -/
theorem csv_gdpdu_export_attempts_later_tables (book : QofBook) (info : CsvExportInfo)
    (fs : FileSystem) :
    (fs.device (splits_file_name info.file_name) = none →
      (csv_gdpdu_export book info fs).1.failed = true ∧
      ∀ room : List Nat,
        (csv_gdpdu_export book info fs).2.file (transactions_file_name info.file_name)
          = (csv_gdpdu_export book info
              { fs with device := fun name =>
                  if name = splits_file_name info.file_name then some room
                  else fs.device name }).2.file (transactions_file_name info.file_name) ∧
        (csv_gdpdu_export book info fs).2.file (accounts_file_name info.file_name)
          = (csv_gdpdu_export book info
              { fs with device := fun name =>
                  if name = splits_file_name info.file_name then some room
                  else fs.device name }).2.file (accounts_file_name info.file_name)) ∧
    (csv_gdpdu_export book info fs).2.fopen_log =
      fs.fopen_log ++ [splits_file_name info.file_name,
        transactions_file_name info.file_name, accounts_file_name info.file_name] ∧
    (∀ room : List Nat, fs.device (transactions_file_name info.file_name) = some room →
      (csv_gdpdu_export book info fs).2.file (transactions_file_name info.file_name) =
        some (write_transactions_table book (csv_gdpdu_export_setup info)
          { name := transactions_file_name info.file_name, accept := room, calls := [] }).2) ∧
    (∀ room : List Nat, fs.device (accounts_file_name info.file_name) = some room →
      (csv_gdpdu_export book info fs).2.file (accounts_file_name info.file_name) =
        some (write_accounts_table book (csv_gdpdu_export_setup info)
          { name := accounts_file_name info.file_name, accept := room, calls := [] }).2) := by
  refine ⟨fun hdev => ⟨?_, fun room => ⟨?_, ?_⟩⟩, ?_, fun room hroom => ?_, fun room hroom => ?_⟩
  · rw [csv_gdpdu_export_eq]
    simp [hdev, table_ok_of_none]
  · rw [file_transactions_csv_gdpdu_export, file_transactions_csv_gdpdu_export]
    simp only [(splits_ne_transactions info.file_name).symm, if_false]
    rfl
  · rw [file_accounts_csv_gdpdu_export, file_accounts_csv_gdpdu_export]
    simp only [(splits_ne_accounts info.file_name).symm, if_false]
    rfl
  · rw [csv_gdpdu_export_eq]
  · rw [file_transactions_csv_gdpdu_export, hroom, write_transactions_table_stream]
    rfl
  · rw [file_accounts_csv_gdpdu_export, hroom, write_accounts_table_stream]
    rfl

/-- C6, witness: in the example file system without splits file the flag is true after the
export, and the transactions file is the same as in a run where the splits file opens. -/
theorem csv_gdpdu_export_attempts_later_tables_witness :
    (csv_gdpdu_export example_book example_info example_fs_no_splits).1.failed = true ∧
    (csv_gdpdu_export example_book example_info example_fs_no_splits).2.file
        (transactions_file_name example_info.file_name)
      = (csv_gdpdu_export example_book example_info
          { example_fs_no_splits with device := fun name =>
              if name = splits_file_name example_info.file_name then some []
              else example_fs_no_splits.device name }).2.file
        (transactions_file_name example_info.file_name) :=
  ⟨((csv_gdpdu_export_attempts_later_tables example_book example_info example_fs_no_splits).1
      (by decide)).1,
    (((csv_gdpdu_export_attempts_later_tables example_book example_info example_fs_no_splits).1
      (by decide)).2 []).1⟩

/-! ### A write failure stops the table -/

theorem content_eq (name : Str) (accept : List Nat) (calls : List (Str × Nat)) :
    FILE.content { name := name, accept := accept, calls := calls }
      = (calls.map (fun c => c.1.take c.2)).flatten := rfl

theorem content_of_calls (fh fh' : FILE) (pre : List Str) (line : Str) (room : Nat)
    (h : fh'.calls = fh.calls ++ pre.map (fun l => (l, strlen l)) ++ [(line, room)]) :
    fh'.content = fh.content ++ pre.flatten ++ line.take room := by
  simp only [FILE.content, h, List.map_append, List.map_map, List.flatten_append]
  have : (fun c : Str × Nat => List.take c.2 c.1) ∘ (fun l : Str => (l, strlen l)) = id := by
    funext l
    simp [strlen]
  simp [this]

/-- The writing of lines stops at the first short write. -/
theorem write_lines_stop (lines : List Str) (fh : FILE) (k room : Nat) (line : Str)
    (hline : lines[k]? = some line) (hbefore : takes fh.accept (lines.take k) = true)
    (hroom : fh.accept[k]? = some room) (hshort : room < strlen line) :
    (write_lines lines fh).1 = false ∧
    (write_lines lines fh).2.calls
      = fh.calls ++ (lines.take k).map (fun l => (l, strlen l)) ++ [(line, room)] ∧
    (write_lines lines fh).2.content = fh.content ++ (lines.take k).flatten ++ line.take room := by
  have hk : k < lines.length := by
    by_contra hge
    rw [List.getElem?_eq_none (Nat.le_of_not_lt hge)] at hline
    exact Option.noConfusion hline
  have hsplit : lines = lines.take k ++ line :: lines.drop (k + 1) := by
    have hget : lines[k] = line := by
      rw [List.getElem?_eq_getElem hk] at hline
      exact Option.some.inj hline
    rw [← hget, ← List.drop_eq_getElem_cons hk, List.take_append_drop]
  have hlen : (lines.take k).length = k := by
    rw [List.length_take]
    omega
  have hw := write_lines_of_short (lines.take k) line (lines.drop (k + 1)) fh room hbefore
    (by rw [hlen]; exact hroom) hshort
  rw [← hsplit] at hw
  refine ⟨by rw [hw], by rw [hw], ?_⟩
  exact content_of_calls fh _ _ line room (by rw [hw])

/-- C7: in each of the three table writers, when the first short write occurs at the line of
position `k` (the device takes the lines before it in full and only `room` bytes of it), the
failure flag is true afterwards, the `fwrite` calls made are the complete writes of the lines
before position `k`, in order, followed by the short write of line `k` and nothing after it,
and the stream holds the lines before `k` followed by the bytes taken of line `k`. -/
theorem table_writers_stop_at_first_short_write (book : QofBook) (info : CsvExportInfo)
    (fh : FILE) (k room : Nat) (line : Str)
    (hroom : fh.accept[k]? = some room) (hshort : room < strlen line) :
    ((splits_table_lines info book.splits)[k]? = some line →
        takes fh.accept ((splits_table_lines info book.splits).take k) = true →
      (write_splits_table book info fh).1.failed = true ∧
      (write_splits_table book info fh).2.calls
        = fh.calls
          ++ ((splits_table_lines info book.splits).take k).map (fun l => (l, strlen l))
          ++ [(line, room)] ∧
      (write_splits_table book info fh).2.content
        = fh.content ++ ((splits_table_lines info book.splits).take k).flatten
          ++ line.take room) ∧
    ((transactions_table_lines info book.transactions)[k]? = some line →
        takes fh.accept ((transactions_table_lines info book.transactions).take k) = true →
      (write_transactions_table book info fh).1.failed = true ∧
      (write_transactions_table book info fh).2.calls
        = fh.calls
          ++ ((transactions_table_lines info book.transactions).take k).map
              (fun l => (l, strlen l))
          ++ [(line, room)] ∧
      (write_transactions_table book info fh).2.content
        = fh.content ++ ((transactions_table_lines info book.transactions).take k).flatten
          ++ line.take room) ∧
    ((accounts_table_lines info book.accounts)[k]? = some line →
        takes fh.accept ((accounts_table_lines info book.accounts).take k) = true →
      (write_accounts_table book info fh).1.failed = true ∧
      (write_accounts_table book info fh).2.calls
        = fh.calls
          ++ ((accounts_table_lines info book.accounts).take k).map (fun l => (l, strlen l))
          ++ [(line, room)] ∧
      (write_accounts_table book info fh).2.content
        = fh.content ++ ((accounts_table_lines info book.accounts).take k).flatten
          ++ line.take room) := by
  refine ⟨?_, ?_, ?_⟩
  · intro hline hbefore
    have h := write_lines_stop (splits_table_lines info book.splits) fh k room line hline
      hbefore hroom hshort
    simp only [write_splits_table, write_splits_table_loop_eq]
    exact ⟨by simp [h.1], h.2⟩
  · intro hline hbefore
    have h := write_lines_stop (transactions_table_lines info book.transactions) fh k room line
      hline hbefore hroom hshort
    simp only [write_transactions_table, write_transactions_table_loop_eq]
    exact ⟨by simp [h.1], h.2⟩
  · intro hline hbefore
    have h := write_lines_stop (accounts_table_lines info book.accounts) fh k room line hline
      hbefore hroom hshort
    simp only [write_accounts_table, write_accounts_table_loop_eq]
    exact ⟨by simp [h.1], h.2⟩

/-- C7, witness: the splits writer of the example ledger on a device that takes the first line
and three bytes of the second. -/
theorem table_writers_stop_at_first_short_write_witness :
    (write_splits_table example_book (csv_gdpdu_export_setup example_info)
        { name := [], accept := [100, 3], calls := [] }).1.failed = true ∧
    (write_splits_table example_book (csv_gdpdu_export_setup example_info)
        { name := [], accept := [100, 3], calls := [] }).2.content
      = write_splits_table_line (csv_gdpdu_export_setup example_info) example_split
          example_checking ++ ['S', '1', ';'] :=
  have h := (table_writers_stop_at_first_short_write example_book
    (csv_gdpdu_export_setup example_info) { name := [], accept := [100, 3], calls := [] } 1 3
    (write_splits_table_line (csv_gdpdu_export_setup example_info) example_split
      example_checking) rfl (by decide)).1 (by decide) (by decide)
  ⟨h.1, by rw [h.2.2]; decide⟩

/-! ### Blank splits -/

theorem length_filterMap_eq_length_filter {α β : Type} (f : α → Option β) (l : List α) :
    (l.filterMap f).length = (l.filter (fun a => (f a).isSome)).length := by
  induction l with
  | nil => rfl
  | cons a l ih =>
    cases h : f a <;> simp [List.filterMap_cons, List.filter_cons, h, ih]

/-- C10, as amended: the lines of the splits table are one for each split with an account, in
the order of the query, and none for a split without account, so there are as many as splits
with an account. In every run the lines handed to `fwrite` are the first of these lines, in
order; when the device takes every line in full they are all of them, each written in full, and
the count of rows written equals the count of splits with an account. -/
theorem write_splits_table_rows (book : QofBook) (info : CsvExportInfo) (fh : FILE)
    (lines : List Str)
    (hlines : lines = book.splits.filterMap (fun split =>
      (xaccSplitGetAccount split).map (write_splits_table_line info split))) :
    lines.length
      = (book.splits.filter (fun split => (xaccSplitGetAccount split).isSome)).length ∧
    (∃ n, n ≤ lines.length ∧
      (write_splits_table book info fh).2.calls.map Prod.fst
        = fh.calls.map Prod.fst ++ lines.take n) ∧
    (takes fh.accept lines = true →
      (write_splits_table book info fh).2.calls
          = fh.calls ++ lines.map (fun line => (line, strlen line)) ∧
      (write_splits_table book info fh).2.calls.length
          = fh.calls.length
            + (book.splits.filter (fun split => (xaccSplitGetAccount split).isSome)).length) := by
  subst hlines
  have hlen : (book.splits.filterMap (fun split =>
      (xaccSplitGetAccount split).map (write_splits_table_line info split))).length
      = (book.splits.filter (fun split => (xaccSplitGetAccount split).isSome)).length := by
    rw [length_filterMap_eq_length_filter]
    congr 2
    funext split
    simp
  refine ⟨hlen, ?_, fun htakes => ?_⟩
  · obtain ⟨n, hn, hcalls, _⟩ := write_lines_calls (splits_table_lines info book.splits) fh
    exact ⟨n, hn, by rw [write_splits_table_stream]; exact hcalls⟩
  · have hw := write_lines_of_takes (splits_table_lines info book.splits) fh htakes
    have hcalls : (write_splits_table book info fh).2.calls
        = fh.calls ++ (splits_table_lines info book.splits).map
            (fun line => (line, strlen line)) := by
      rw [write_splits_table_stream, hw]
    refine ⟨hcalls, ?_⟩
    rw [hcalls, List.length_append, List.length_map]
    exact congrArg _ hlen

/-- C10, witness: the example ledger (a blank split, two splits with an account) on a device
that takes every line. -/
theorem write_splits_table_rows_witness :
    (write_splits_table example_book (csv_gdpdu_export_setup example_info)
        { name := [], accept := [], calls := [] }).2.calls.length
      = 0 + (example_book.splits.filter
          (fun split => (xaccSplitGetAccount split).isSome)).length :=
  ((write_splits_table_rows example_book (csv_gdpdu_export_setup example_info)
    { name := [], accept := [], calls := [] } _ rfl).2.2 (by decide)).2

/-- C10, counterexample: on a device that takes no byte of the first line the splits writer
stops after one `fwrite` call, while the example ledger has two splits with an account. -/
theorem write_splits_table_rows_fewer_after_short_write :
    (write_splits_table example_book (csv_gdpdu_export_setup example_info)
        { name := [], accept := [0], calls := [] }).2.calls.length
      ≠ (example_book.splits.filter (fun split => (xaccSplitGetAccount split).isSome)).length := by
  decide

/-! ### The count of fields of a line -/

/-- A field that the quote-aware splitter reads in one piece: no delimiter outside a quoted
region, and no quoted region left open. -/
theorem csv_split_scan_field_plain (f rest : Str) (hq : '"' ∉ f) (hd : ';' ∉ f) :
    csv_split_scan false [] (f ++ ([';'] ++ rest)) = f :: csv_split_scan false [] rest := by
  rw [csv_split_scan_plain f [] _ hq hd]
  simp [csv_split_scan]

theorem csv_split_scan_field_escaped (info : CsvExportInfo) (text rest : Str)
    (hsep : info.separator_str = [';']) (hmode : info.use_quotes = false) :
    csv_split_scan false [] (csv_txn_test_field_string info text ++ ([';'] ++ rest))
      = csv_txn_test_field_string info text :: csv_split_scan false [] rest := by
  rw [csv_txn_test_field_string_eq, hsep, hmode]
  unfold escaped_field
  simp only [singleton_sublist_iff_mem, and_true]
  split
  · have h := csv_split_scan_wrapped text ([';'] ++ rest)
    rw [h]
    simp [csv_split_scan]
  · rename_i h
    simp only [not_or] at h
    exact csv_split_scan_field_plain _ _ h.2.2 h.1

theorem csv_split_scan_eolstr : csv_split_scan false [] ['\r', '\n'] = [['\r', '\n']] := by
  decide

/-- When the configuration is not in "always quote" mode, the lines that `csv_gdpdu_export`
builds have the fixed count of fields of their table: read with the quote-aware splitter, a
line gives its 6, 7 or 5 columns and then the line terminator, whatever the text fields
contain, provided the identifiers and dates contain no delimiter and no quote. -/
theorem lines_have_fixed_field_count (info : CsvExportInfo) (hmode : info.use_quotes = false) :
    (∀ (split : Split) (account : Account),
      '"' ∉ guid_to_string (xaccSplitGetGUID split) →
      ';' ∉ guid_to_string (xaccSplitGetGUID split) →
      '"' ∉ guid_to_string (xaccTransGetGUID (xaccSplitGetParent split)) →
      ';' ∉ guid_to_string (xaccTransGetGUID (xaccSplitGetParent split)) →
      '"' ∉ guid_to_string (xaccAccountGetGUID account) →
      ';' ∉ guid_to_string (xaccAccountGetGUID account) →
      csv_split (write_splits_table_line (csv_gdpdu_export_setup info) split account)
        = [guid_to_string (xaccSplitGetGUID split),
           guid_to_string (xaccTransGetGUID (xaccSplitGetParent split)),
           guid_to_string (xaccAccountGetGUID account),
           csv_txn_test_field_string (csv_gdpdu_export_setup info)
             (if xaccTransGetVoidStatus (xaccSplitGetParent split)
               then split.print_void_former_amount false else split.print_amount false),
           csv_txn_test_field_string (csv_gdpdu_export_setup info) (xaccSplitGetAction split),
           csv_txn_test_field_string (csv_gdpdu_export_setup info)
             ((xaccSplitGetMemo split).getD []),
           ['\r', '\n']]) ∧
    (∀ trans : Transaction,
      '"' ∉ guid_to_string (xaccTransGetGUID trans) →
      ';' ∉ guid_to_string (xaccTransGetGUID trans) →
      (∀ reversedBy, xaccTransGetReversedBy trans = some reversedBy →
        '"' ∉ guid_to_string (xaccTransGetGUID reversedBy)
          ∧ ';' ∉ guid_to_string (xaccTransGetGUID reversedBy)) →
      '"' ∉ print_date_posted trans → ';' ∉ print_date_posted trans →
      '"' ∉ print_date_entered trans → ';' ∉ print_date_entered trans →
      csv_split (write_transactions_table_line (csv_gdpdu_export_setup info) trans)
        = [guid_to_string (xaccTransGetGUID trans),
           ((xaccTransGetReversedBy trans).map
              (fun reversedBy => guid_to_string (xaccTransGetGUID reversedBy))).getD [],
           print_date_posted trans,
           print_date_entered trans,
           csv_txn_test_field_string (csv_gdpdu_export_setup info)
             ((xaccTransGetNum trans).getD []),
           csv_txn_test_field_string (csv_gdpdu_export_setup info)
             ((xaccTransGetDescription trans).getD []),
           csv_txn_test_field_string (csv_gdpdu_export_setup info)
             ((xaccTransGetDocLink trans).getD []),
           ['\r', '\n']]) ∧
    (∀ account : Account,
      '"' ∉ guid_to_string (xaccAccountGetGUID account) →
      ';' ∉ guid_to_string (xaccAccountGetGUID account) →
      '"' ∉ parent_guid_column account → ';' ∉ parent_guid_column account →
      csv_split (write_accounts_table_line (csv_gdpdu_export_setup info) account)
        = [guid_to_string (xaccAccountGetGUID account),
           parent_guid_column account,
           csv_txn_test_field_string (csv_gdpdu_export_setup info)
             ((xaccAccountGetCode account).getD []),
           csv_txn_test_field_string (csv_gdpdu_export_setup info) (xaccAccountGetName account),
           csv_txn_test_field_string (csv_gdpdu_export_setup info)
             (gnc_account_get_full_name account),
           ['\r', '\n']]) := by
  have hsep : (csv_gdpdu_export_setup info).separator_str = [';'] := rfl
  have hm : (csv_gdpdu_export_setup info).use_quotes = false := hmode
  refine ⟨?_, ?_, ?_⟩
  · intro split account h1 h2 h3 h4 h5 h6
    rw [write_splits_table_line_eq, csv_split]
    simp only [csv_gdpdu_export_setup_mid_sep, List.append_assoc, EOLSTR]
    rw [csv_split_scan_field_plain _ _ h1 h2, csv_split_scan_field_plain _ _ h3 h4,
      csv_split_scan_field_plain _ _ h5 h6, csv_split_scan_field_escaped _ _ _ hsep hm,
      csv_split_scan_field_escaped _ _ _ hsep hm, csv_split_scan_field_escaped _ _ _ hsep hm,
      csv_split_scan_eolstr]
  · intro trans h1 h2 hrev h3 h4 h5 h6
    rw [write_transactions_table_line_eq, csv_split]
    simp only [csv_gdpdu_export_setup_mid_sep, List.append_assoc, EOLSTR]
    have hr : '"' ∉ ((xaccTransGetReversedBy trans).map
          (fun reversedBy => guid_to_string (xaccTransGetGUID reversedBy))).getD [] ∧
        ';' ∉ ((xaccTransGetReversedBy trans).map
          (fun reversedBy => guid_to_string (xaccTransGetGUID reversedBy))).getD [] := by
      cases h : xaccTransGetReversedBy trans with
      | none => simp
      | some r => simpa using hrev r h
    rw [csv_split_scan_field_plain _ _ h1 h2, csv_split_scan_field_plain _ _ hr.1 hr.2,
      csv_split_scan_field_plain _ _ h3 h4, csv_split_scan_field_plain _ _ h5 h6,
      csv_split_scan_field_escaped _ _ _ hsep hm,
      csv_split_scan_field_escaped _ _ _ hsep hm, csv_split_scan_field_escaped _ _ _ hsep hm,
      csv_split_scan_eolstr]
  · intro account h1 h2 h3 h4
    rw [write_accounts_table_line_eq, csv_split]
    simp only [csv_gdpdu_export_setup_mid_sep, List.append_assoc, EOLSTR]
    rw [csv_split_scan_field_plain _ _ h1 h2, csv_split_scan_field_plain _ _ h3 h4,
      csv_split_scan_field_escaped _ _ _ hsep hm,
      csv_split_scan_field_escaped _ _ _ hsep hm, csv_split_scan_field_escaped _ _ _ hsep hm,
      csv_split_scan_eolstr]

/-- The export leaves the mode "fields are always quoted" as it finds it. -/
theorem csv_gdpdu_export_use_quotes (book : QofBook) (info : CsvExportInfo) (fs : FileSystem) :
    (csv_gdpdu_export book info fs).1.use_quotes = info.use_quotes := by
  rw [csv_gdpdu_export_eq]
  rfl

/-- C4, at the failing input: handed a configuration in "always quote" mode, the export writes
the transaction with the description `Deposit; funds` as a line that the quote-aware splitter
reads as eight fields and the terminator, not seven: the description is not wrapped in quotes
and falls apart at its delimiter. -/
theorem transactions_line_field_count_in_always_quote_mode :
    ((csv_gdpdu_export example_book example_info_always_quote example_fs).2.file
        (transactions_file_name example_info_always_quote.file_name)).map
      (fun fh => fh.calls.map (fun call => csv_split call.1))
    = some [[['T', '1'], [], "2024-01-01".toList, "2024-01-02".toList, [],
        "Deposit".toList, " funds".toList, [], ['\r', '\n']]] := by
  decide

/-- C8, at the failing input: handed a configuration in "always quote" mode, the export sets
both delimiter strings to `;` and leaves the mode on, and the tables are written with it: the
description `Deposit; funds` reaches the transactions file without quotes. -/
theorem csv_gdpdu_export_keeps_always_quote_mode :
    (csv_gdpdu_export example_book example_info_always_quote example_fs).1
      = { file_name := ['o', 'u', 't'], separator_str := [';'], mid_sep := [';'],
          end_sep := ['"'], use_quotes := true, failed := false } ∧
    ((csv_gdpdu_export example_book example_info_always_quote example_fs).2.file
        (transactions_file_name example_info_always_quote.file_name)).map FILE.content
      = some "T1;;2024-01-01;2024-01-02;;Deposit; funds;;\r\n".toList := by
  decide

/-! ### The parent column and the amount column -/

/-- C11: for an account with a parent (every account of the accounts table is a descendant of
the root account), the parent column that `write_account_parent_guid` appends, and that the
line of the account holds as its second field, is empty when the parent is the root account and
the identifier string of the parent otherwise; as an identifier string is not empty, the column
is empty if and only if the parent is the root account. -/
theorem parent_column_empty_iff_parent_is_root (info : CsvExportInfo) (account parent : Account)
    (hparent : gnc_account_get_parent account = some parent) :
    (∀ so_far : Str,
      write_account_parent_guid so_far account info =
        so_far
          ++ (if gnc_account_is_root parent then []
              else guid_to_string (xaccAccountGetGUID parent))
          ++ info.mid_sep) ∧
    write_accounts_table_line (csv_gdpdu_export_setup info) account =
      gdpdu_row
        [guid_to_string (xaccAccountGetGUID account),
         if gnc_account_is_root parent then [] else guid_to_string (xaccAccountGetGUID parent),
         csv_txn_test_field_string (csv_gdpdu_export_setup info)
           ((xaccAccountGetCode account).getD []),
         csv_txn_test_field_string (csv_gdpdu_export_setup info) (xaccAccountGetName account),
         csv_txn_test_field_string (csv_gdpdu_export_setup info)
           (gnc_account_get_full_name account)] ∧
    (guid_to_string (xaccAccountGetGUID parent) ≠ [] →
      ((if gnc_account_is_root parent then []
          else guid_to_string (xaccAccountGetGUID parent)) = []
        ↔ gnc_account_is_root parent = true)) := by
  have hcol : parent_guid_column account
      = if gnc_account_is_root parent then []
        else guid_to_string (xaccAccountGetGUID parent) := by
    simp only [parent_guid_column, hparent]
  refine ⟨fun so_far => ?_, ?_, fun hne => ?_⟩
  · rw [write_account_parent_guid_eq, hcol]
  · rw [write_accounts_table_line_eq, hcol]
    simp [gdpdu_row, EOLSTR]
  · by_cases hroot : gnc_account_is_root parent = true
    · simp [hroot]
    · simp [hroot, hne]

/-- C11, witness: the account "Checking" of the example ledger, right under the root account. -/
theorem parent_column_empty_iff_parent_is_root_witness :
    write_account_parent_guid ['A', '1', ';'] example_checking example_info
      = ['A', '1', ';'] ++ [] ++ [','] :=
  (parent_column_empty_iff_parent_is_root example_info example_checking example_root rfl).1
    ['A', '1', ';']

/-- C19: when the account is itself the root account, `write_account_parent_guid` takes its
first branch, which returns before any parent is looked up: for every line so far, the result is
the line so far followed by the delimiter of the configuration, an empty parent column. -/
theorem write_account_parent_guid_of_root (so_far : Str) (account : Account)
    (info : CsvExportInfo) (hroot : gnc_account_is_root account = true) :
    write_account_parent_guid so_far account info = so_far ++ info.mid_sep ∧
    write_account_parent_guid so_far account (csv_gdpdu_export_setup info) = so_far ++ [';'] := by
  constructor
  · simp [write_account_parent_guid, hroot, g_strconcat_two]
  · simp [write_account_parent_guid, hroot, g_strconcat_two]

/-- C19, witness: the root account of the example ledger. -/
theorem write_account_parent_guid_of_root_witness :
    write_account_parent_guid ['R', '0', ';'] example_root (csv_gdpdu_export_setup example_info)
      = ['R', '0', ';'] ++ [';'] :=
  (write_account_parent_guid_of_root ['R', '0', ';'] example_root example_info rfl).2

/-- C12: the amount column of the line of a split is computed from the void-former amount of
the split when the void flag of its transaction is set, and from the live amount when it is
not; in both cases the amount is printed without currency symbol (`symbol` is `FALSE`) and
passed through the field escaper. -/
theorem amount_column_follows_void_status (info : CsvExportInfo) (split : Split)
    (account : Account) :
    (xaccTransGetVoidStatus (xaccSplitGetParent split) = true →
      write_splits_table_line (csv_gdpdu_export_setup info) split account =
        gdpdu_row
          [guid_to_string (xaccSplitGetGUID split),
           guid_to_string (xaccTransGetGUID (xaccSplitGetParent split)),
           guid_to_string (xaccAccountGetGUID account),
           csv_txn_test_field_string (csv_gdpdu_export_setup info)
             (split.print_void_former_amount false),
           csv_txn_test_field_string (csv_gdpdu_export_setup info) (xaccSplitGetAction split),
           csv_txn_test_field_string (csv_gdpdu_export_setup info)
             ((xaccSplitGetMemo split).getD [])]) ∧
    (xaccTransGetVoidStatus (xaccSplitGetParent split) = false →
      write_splits_table_line (csv_gdpdu_export_setup info) split account =
        gdpdu_row
          [guid_to_string (xaccSplitGetGUID split),
           guid_to_string (xaccTransGetGUID (xaccSplitGetParent split)),
           guid_to_string (xaccAccountGetGUID account),
           csv_txn_test_field_string (csv_gdpdu_export_setup info) (split.print_amount false),
           csv_txn_test_field_string (csv_gdpdu_export_setup info) (xaccSplitGetAction split),
           csv_txn_test_field_string (csv_gdpdu_export_setup info)
             ((xaccSplitGetMemo split).getD [])]) ∧
    (∀ (so_far : Str) (t_void : Bool),
      write_split_amount so_far split t_void false info
        = so_far
          ++ csv_txn_test_field_string info
              (if t_void then split.print_void_former_amount false
                else split.print_amount false)
          ++ info.mid_sep) := by
  refine ⟨fun hvoid => ?_, fun hvoid => ?_, fun so_far t_void => ?_⟩
  · rw [write_splits_table_line_eq, hvoid]
    simp [gdpdu_row, EOLSTR]
  · rw [write_splits_table_line_eq, hvoid]
    simp [gdpdu_row, EOLSTR]
  · simp [write_split_amount, g_strconcat_three]

/-- C12, witness: the split of the example ledger, whose transaction is not void, has the live
amount `100.00` as its amount column. -/
theorem amount_column_follows_void_status_witness :
    write_splits_table_line (csv_gdpdu_export_setup example_info) example_split example_checking
      = gdpdu_row
          [guid_to_string (xaccSplitGetGUID example_split),
           guid_to_string (xaccTransGetGUID (xaccSplitGetParent example_split)),
           guid_to_string (xaccAccountGetGUID example_checking),
           csv_txn_test_field_string (csv_gdpdu_export_setup example_info)
             (example_split.print_amount false),
           csv_txn_test_field_string (csv_gdpdu_export_setup example_info)
             (xaccSplitGetAction example_split),
           csv_txn_test_field_string (csv_gdpdu_export_setup example_info)
             ((xaccSplitGetMemo example_split).getD [])] :=
  (amount_column_follows_void_status example_info example_split example_checking).2.1 rfl

/-! ### The field escaper is injective -/

theorem double_quotes_injective (a b : Str) (h : double_quotes a = double_quotes b) : a = b := by
  have := congrArg csv_collapse h
  rwa [csv_collapse_double_quotes, csv_collapse_double_quotes] at this

/-- C18: for a fixed configuration the field escaper is injective: two texts with the same
output are equal, so two distinct field values are never exported as the same column text. -/
theorem csv_txn_test_field_string_injective (info : CsvExportInfo) (a b : Str) :
    (csv_txn_test_field_string info a = csv_txn_test_field_string info b → a = b) ∧
    (a ≠ b → csv_txn_test_field_string info a ≠ csv_txn_test_field_string info b) := by
  have key : csv_txn_test_field_string info a = csv_txn_test_field_string info b → a = b := by
    intro h
    rw [csv_txn_test_field_string_eq, csv_txn_test_field_string_eq] at h
    unfold escaped_field at h
    simp only at h
    apply double_quotes_injective
    split at h <;> split at h
    · simpa using h
    · rename_i ha hb
      exfalso
      apply hb
      refine ⟨Or.inr (Or.inr ?_), ha.2⟩
      rw [← h]
      simp
    · rename_i ha hb
      exfalso
      apply ha
      refine ⟨Or.inr (Or.inr ?_), hb.2⟩
      rw [h]
      simp
    · exact h
  exact ⟨key, fun hne h => hne (key h)⟩

/-- C18, witness: the fields `a;b` and `a;c` are exported as different column texts. -/
theorem csv_txn_test_field_string_injective_witness :
    csv_txn_test_field_string (csv_gdpdu_export_setup example_info) ['a', ';', 'b']
      ≠ csv_txn_test_field_string (csv_gdpdu_export_setup example_info) ['a', ';', 'c'] :=
  (csv_txn_test_field_string_injective (csv_gdpdu_export_setup example_info)
    ['a', ';', 'b'] ['a', ';', 'c']).2 (by decide)

/-! ### The table writers and the configuration -/

/-- C15: each of the three table writers leaves every field of the configuration other than
the failure flag as it is and never lowers the failure flag; the flag is not read: what the
writer does to the stream is the same whatever the flag is when it starts. -/
theorem table_writers_touch_only_the_failure_flag (book : QofBook) (info : CsvExportInfo)
    (fh : FILE) :
    ((write_splits_table book info fh).1
        = { info with failed := (write_splits_table book info fh).1.failed } ∧
      (info.failed = true → (write_splits_table book info fh).1.failed = true) ∧
      ∀ flag : Bool, (write_splits_table book { info with failed := flag } fh).2
        = (write_splits_table book info fh).2) ∧
    ((write_transactions_table book info fh).1
        = { info with failed := (write_transactions_table book info fh).1.failed } ∧
      (info.failed = true → (write_transactions_table book info fh).1.failed = true) ∧
      ∀ flag : Bool, (write_transactions_table book { info with failed := flag } fh).2
        = (write_transactions_table book info fh).2) ∧
    ((write_accounts_table book info fh).1
        = { info with failed := (write_accounts_table book info fh).1.failed } ∧
      (info.failed = true → (write_accounts_table book info fh).1.failed = true) ∧
      ∀ flag : Bool, (write_accounts_table book { info with failed := flag } fh).2
        = (write_accounts_table book info fh).2) := by
  refine ⟨⟨?_, fun h => ?_, fun flag => ?_⟩, ⟨?_, fun h => ?_, fun flag => ?_⟩,
    ⟨?_, fun h => ?_, fun flag => ?_⟩⟩
  · simp [write_splits_table, write_splits_table_loop_eq]
  · simp [write_splits_table, write_splits_table_loop_eq, h]
  · rw [write_splits_table_stream, write_splits_table_stream, splits_table_lines_failed]
  · simp [write_transactions_table, write_transactions_table_loop_eq]
  · simp [write_transactions_table, write_transactions_table_loop_eq, h]
  · rw [write_transactions_table_stream, write_transactions_table_stream,
      transactions_table_lines_failed]
  · simp [write_accounts_table, write_accounts_table_loop_eq]
  · simp [write_accounts_table, write_accounts_table_loop_eq, h]
  · rw [write_accounts_table_stream, write_accounts_table_stream, accounts_table_lines_failed]

/-- C15, witness: the splits writer of the example ledger, started with the failure flag set,
on a device that takes every line. -/
theorem table_writers_touch_only_the_failure_flag_witness :
    (write_splits_table example_book example_info
      { name := [], accept := [], calls := [] }).1.failed = true :=
  (table_writers_touch_only_the_failure_flag example_book example_info
    { name := [], accept := [], calls := [] }).1.2.1 rfl

/-! ### One line for each record -/

theorem content_of_complete_calls (fh fh' : FILE) (lines : List Str)
    (h : fh'.calls = fh.calls ++ lines.map (fun l => (l, strlen l))) :
    fh'.content = fh.content ++ lines.flatten := by
  simp only [FILE.content, h, List.map_append, List.map_map, List.flatten_append]
  have : (fun c : Str × Nat => List.take c.2 c.1) ∘ (fun l : Str => (l, strlen l)) = id := by
    funext l
    simp [strlen]
  simp [this]

/-- When the device takes all the lines, the stream receives all of them, in order. -/
theorem write_lines_complete (lines : List Str) (fh : FILE)
    (h : takes fh.accept lines = true) :
    (write_lines lines fh).1 = true ∧
    (write_lines lines fh).2.calls = fh.calls ++ lines.map (fun l => (l, strlen l)) ∧
    (write_lines lines fh).2.content = fh.content ++ lines.flatten := by
  have hw := write_lines_of_takes lines fh h
  refine ⟨by rw [hw], by rw [hw], ?_⟩
  exact content_of_complete_calls fh _ lines (by rw [hw])

/-- C16: when every write succeeds (the device takes every line in full), the transactions
writer and the accounts writer make one complete `fwrite` call for each record, in the order of
the list: the stream receives the concatenation of the lines of the records in list order, the
count of lines written equals the count of records, and the line of position `i` is the line
of the record of position `i`. The failure flag stays as it was. -/
theorem one_line_for_each_record_in_order (book : QofBook) (info : CsvExportInfo) (fh : FILE) :
    (takes fh.accept (book.transactions.map (write_transactions_table_line info)) = true →
      (write_transactions_table book info fh).2.calls
        = fh.calls ++ book.transactions.map (fun transaction =>
            (write_transactions_table_line info transaction,
              strlen (write_transactions_table_line info transaction))) ∧
      (write_transactions_table book info fh).2.content
        = fh.content ++ (book.transactions.map (write_transactions_table_line info)).flatten ∧
      (write_transactions_table book info fh).2.calls.length
        = fh.calls.length + book.transactions.length ∧
      (∀ i : Nat,
        ((write_transactions_table book info fh).2.calls.drop fh.calls.length)[i]?.map Prod.fst
          = book.transactions[i]?.map (write_transactions_table_line info)) ∧
      (write_transactions_table book info fh).1 = info) ∧
    (takes fh.accept (book.accounts.map (write_accounts_table_line info)) = true →
      (write_accounts_table book info fh).2.calls
        = fh.calls ++ book.accounts.map (fun account =>
            (write_accounts_table_line info account,
              strlen (write_accounts_table_line info account))) ∧
      (write_accounts_table book info fh).2.content
        = fh.content ++ (book.accounts.map (write_accounts_table_line info)).flatten ∧
      (write_accounts_table book info fh).2.calls.length
        = fh.calls.length + book.accounts.length ∧
      (∀ i : Nat,
        ((write_accounts_table book info fh).2.calls.drop fh.calls.length)[i]?.map Prod.fst
          = book.accounts[i]?.map (write_accounts_table_line info)) ∧
      (write_accounts_table book info fh).1 = info) := by
  constructor
  · intro h
    have hw := write_lines_complete (transactions_table_lines info book.transactions) fh h
    have hcalls : (write_transactions_table book info fh).2.calls
        = fh.calls ++ book.transactions.map (fun transaction =>
            (write_transactions_table_line info transaction,
              strlen (write_transactions_table_line info transaction))) := by
      rw [write_transactions_table_stream, hw.2.1]
      simp [transactions_table_lines, List.map_map, Function.comp_def]
    refine ⟨hcalls, ?_, ?_, fun i => ?_, ?_⟩
    · rw [write_transactions_table_stream]
      exact hw.2.2
    · rw [hcalls]
      simp
    · rw [hcalls, List.drop_left]
      simp only [List.getElem?_map, Option.map_map]
      rfl
    · simp only [write_transactions_table, write_transactions_table_loop_eq, hw.1]
      simp
  · intro h
    have hw := write_lines_complete (accounts_table_lines info book.accounts) fh h
    have hcalls : (write_accounts_table book info fh).2.calls
        = fh.calls ++ book.accounts.map (fun account =>
            (write_accounts_table_line info account,
              strlen (write_accounts_table_line info account))) := by
      rw [write_accounts_table_stream, hw.2.1]
      simp [accounts_table_lines, List.map_map, Function.comp_def]
    refine ⟨hcalls, ?_, ?_, fun i => ?_, ?_⟩
    · rw [write_accounts_table_stream]
      exact hw.2.2
    · rw [hcalls]
      simp
    · rw [hcalls, List.drop_left]
      simp only [List.getElem?_map, Option.map_map]
      rfl
    · simp only [write_accounts_table, write_accounts_table_loop_eq, hw.1]
      simp

/-- C16, witness: the transactions writer of the example ledger on a device that takes every
line writes the line of its one transaction. -/
theorem one_line_for_each_record_in_order_witness :
    (write_transactions_table example_book (csv_gdpdu_export_setup example_info)
        { name := [], accept := [], calls := [] }).2.content
      = [] ++ (example_book.transactions.map
          (write_transactions_table_line (csv_gdpdu_export_setup example_info))).flatten :=
  ((one_line_for_each_record_in_order example_book (csv_gdpdu_export_setup example_info)
    { name := [], accept := [], calls := [] }).1 (by decide)).2.1

/-! ### The failure flag is the flag of this run -/

/-- C17: `csv_gdpdu_export` clears the failure flag before the first table: when the three
files open and the device takes every line in full, the flag is false after the call, whatever
it was before; and in every run the result of the call is the same whatever the flag was
before. -/
theorem csv_gdpdu_export_clears_stale_flag (book : QofBook) (info : CsvExportInfo)
    (fs : FileSystem) :
    (∀ room_splits room_transactions room_accounts : List Nat,
      fs.device (splits_file_name info.file_name) = some room_splits →
      fs.device (transactions_file_name info.file_name) = some room_transactions →
      fs.device (accounts_file_name info.file_name) = some room_accounts →
      takes room_splits
        (splits_table_lines (csv_gdpdu_export_setup info) book.splits) = true →
      takes room_transactions
        (transactions_table_lines (csv_gdpdu_export_setup info) book.transactions) = true →
      takes room_accounts
        (accounts_table_lines (csv_gdpdu_export_setup info) book.accounts) = true →
      (csv_gdpdu_export book info fs).1.failed = false) ∧
    (∀ flag : Bool,
      csv_gdpdu_export book { info with failed := flag } fs = csv_gdpdu_export book info fs) := by
  refine ⟨fun r1 r2 r3 h1 h2 h3 t1 t2 t3 => ?_, fun flag => rfl⟩
  rw [csv_gdpdu_export_eq, h1, h2, h3]
  simp [table_ok_true_of_takes _ _ _ t1, table_ok_true_of_takes _ _ _ t2,
    table_ok_true_of_takes _ _ _ t3]

/-- C17, witness: the example configuration carries a stale failure flag; after the export of
the example ledger to a file system where everything succeeds the flag is false. -/
theorem csv_gdpdu_export_clears_stale_flag_witness :
    example_info.failed = true ∧
    (csv_gdpdu_export example_book example_info example_fs).1.failed = false :=
  ⟨rfl, (csv_gdpdu_export_clears_stale_flag example_book example_info example_fs).1 [] [] []
    rfl rfl rfl (by decide) (by decide) (by decide)⟩

/-! ### The end-to-end example -/

/-- A text without quote, newline and separator leaves the field escaper as it is. -/
theorem csv_txn_test_field_string_plain (info : CsvExportInfo) (text : Str)
    (hq : '"' ∉ text) (hn : '\n' ∉ text) (hs : ¬ info.separator_str <:+: text) :
    csv_txn_test_field_string info text = text := by
  rw [csv_txn_test_field_string_eq]
  unfold escaped_field
  simp only [double_quotes_of_not_mem text hq]
  simp [hq, hn, hs]

theorem write_lines_single (line : Str) (fh : FILE) :
    (write_lines [line] fh).2.calls = fh.calls ++ [(line, (fwrite line (strlen line) fh).1)] := by
  simp only [write_lines, write_line_to_file_eq]
  by_cases h : (fwrite line (strlen line) fh).1 = strlen line
  · simp only [h, decide_True, write_lines]
    have : (fwrite line (strlen line) fh).2.calls
        = fh.calls ++ [(line, (fwrite line (strlen line) fh).1)] := rfl
    rw [this, h]
  · simp only [h, decide_False]
    rfl

theorem file_splits_csv_gdpdu_export (book : QofBook) (info : CsvExportInfo)
    (fs : FileSystem) :
    (csv_gdpdu_export book info fs).2.file (splits_file_name info.file_name) =
      match fs.device (splits_file_name info.file_name) with
      | some room =>
        table_stream (splits_file_name info.file_name)
          (splits_table_lines (csv_gdpdu_export_setup info) book.splits) (some room)
      | none => fs.file (splits_file_name info.file_name) := by
  rw [csv_gdpdu_export_eq]
  simp only [FileSystem.file, List.append_assoc]
  rw [find_toList_append_of_name_ne _ _ _ _ _ (splits_ne_accounts _).symm,
    find_toList_append_of_name_ne _ _ _ _ _ (splits_ne_transactions _).symm]
  cases h : fs.device (splits_file_name info.file_name) with
  | some room => simp only [find_toList_append_of_some]
  | none =>
    have hnone : ∀ name lines, table_stream name lines none = none := fun _ _ => rfl
    rw [hnone]
    simp only [Option.toList_none, List.nil_append]

/-- The stream of a table of one line: one `fwrite` call with that line, and the line as
content when the device takes it in full. -/
theorem table_stream_single (name line : Str) (room : List Nat) :
    ∃ fh, table_stream name [line] (some room) = some fh ∧
      fh.calls.map Prod.fst = [line] ∧
      (takes room [line] = true → fh.content = line) := by
  refine ⟨_, rfl, ?_, fun h => ?_⟩
  · rw [write_lines_single]
    simp
  · have hw := write_lines_complete [line] { name := name, accept := room, calls := [] } h
    rw [hw.2.2]
    simp [FILE.content]

/-- The line of the account "Checking" right under the root account, without account code. -/
theorem checking_line (info : CsvExportInfo) (acct_id : Str) (root : Account)
    (hroot : gnc_account_is_root root = true) :
    write_accounts_table_line (csv_gdpdu_export_setup info)
        (Account.mk ⟨acct_id⟩ (some root) none "Checking".toList "Checking".toList)
      = acct_id ++ ";;;Checking;Checking;\r\n".toList := by
  have hesc : csv_txn_test_field_string (csv_gdpdu_export_setup info) "Checking".toList
      = "Checking".toList :=
    csv_txn_test_field_string_plain _ _ (by decide) (by decide)
      (by rw [csv_gdpdu_export_setup_separator_str, singleton_sublist_iff_mem]; decide)
  have hnil : csv_txn_test_field_string (csv_gdpdu_export_setup info) [] = [] :=
    csv_txn_test_field_string_plain _ _ (by decide) (by decide)
      (by rw [csv_gdpdu_export_setup_separator_str, singleton_sublist_iff_mem]; decide)
  rw [write_accounts_table_line_eq]
  simp only [parent_guid_column, xaccAccountGetCode, xaccAccountGetName,
    gnc_account_get_full_name, gnc_account_get_parent, hroot, if_true, Option.getD_none, hesc,
    hnil, csv_gdpdu_export_setup_mid_sep, EOLSTR, xaccAccountGetGUID, guid_to_string]
  simp

/-- C13, as amended: for a ledger whose only account is "Checking" right under the root
account, without account code, the accounts file, when it opens, is handed exactly one line, and
that line is the identifier, two empty columns, the short name and the full name, each followed
by the delimiter, then CRLF: `<acct_id>;;;Checking;Checking;` and CRLF. When the device takes
the line in full, this line is the content of the file. -/
theorem accounts_file_of_checking (book : QofBook) (info : CsvExportInfo) (fs : FileSystem)
    (acct_id : Str) (root : Account) (room : List Nat)
    (hroot : gnc_account_is_root root = true)
    (hbook : book.accounts
      = [Account.mk ⟨acct_id⟩ (some root) none "Checking".toList "Checking".toList])
    (hopen : fs.device (accounts_file_name info.file_name) = some room) :
    ∃ fh, (csv_gdpdu_export book info fs).2.file (accounts_file_name info.file_name) = some fh ∧
      fh.calls.map Prod.fst = [acct_id ++ ";;;Checking;Checking;\r\n".toList] ∧
      (takes room [acct_id ++ ";;;Checking;Checking;\r\n".toList] = true →
        fh.content = acct_id ++ ";;;Checking;Checking;\r\n".toList) := by
  rw [file_accounts_csv_gdpdu_export, hopen, hbook]
  simp only [accounts_table_lines, List.map_cons, List.map_nil, checking_line info acct_id root hroot]
  exact table_stream_single _ _ room

/-- C13, witness: the example ledger, whose only account is "Checking" with the identifier
`A1`, exported to a file system where everything succeeds. -/
theorem accounts_file_of_checking_witness :
    ∃ fh, (csv_gdpdu_export example_book example_info example_fs).2.file
        (accounts_file_name example_info.file_name) = some fh ∧
      fh.calls.map Prod.fst = [['A', '1'] ++ ";;;Checking;Checking;\r\n".toList] ∧
      (takes [] [['A', '1'] ++ ";;;Checking;Checking;\r\n".toList] = true →
        fh.content = ['A', '1'] ++ ";;;Checking;Checking;\r\n".toList) :=
  accounts_file_of_checking example_book example_info example_fs ['A', '1'] example_root []
    rfl rfl rfl

/-- C13, counterexample: the accounts file of the example ledger is not
`A1;;;Checking;Checking` and CRLF: the full name too is followed by the delimiter. -/
theorem accounts_file_of_checking_has_trailing_delimiter :
    ((csv_gdpdu_export example_book example_info example_fs).2.file
        (accounts_file_name example_info.file_name)).map FILE.content
      ≠ some (['A', '1'] ++ ";;;Checking;Checking\r\n".toList) := by
  decide

/-- The end-to-end example of the transactions file and the splits file when the configuration
is not in "always quote" mode: the line of a transaction with the description `Deposit; funds`
and no document link ends in `;"Deposit; funds";;` and CRLF, the line of a split with the memo
`He said "hi"` has the memo field `"He said ""hi"""`, and a table of one record hands exactly
this one line to its file. -/
theorem example_lines_when_not_always_quote (info : CsvExportInfo)
    (hmode : info.use_quotes = false) :
    (∀ trans : Transaction,
      xaccTransGetDescription trans = some "Deposit; funds".toList →
      xaccTransGetDocLink trans = none →
      ";\"Deposit; funds\";;\r\n".toList
          <:+ write_transactions_table_line (csv_gdpdu_export_setup info) trans ∧
      ∀ (book : QofBook) (fs : FileSystem) (room : List Nat),
        book.transactions = [trans] →
        fs.device (transactions_file_name info.file_name) = some room →
        ∃ fh, (csv_gdpdu_export book info fs).2.file (transactions_file_name info.file_name)
            = some fh ∧
          fh.calls.map Prod.fst
            = [write_transactions_table_line (csv_gdpdu_export_setup info) trans]) ∧
    (∀ (split : Split) (account : Account),
      xaccSplitGetMemo split = some "He said \"hi\"".toList →
      xaccSplitGetAccount split = some account →
      write_splits_table_line (csv_gdpdu_export_setup info) split account =
        gdpdu_row
          [guid_to_string (xaccSplitGetGUID split),
           guid_to_string (xaccTransGetGUID (xaccSplitGetParent split)),
           guid_to_string (xaccAccountGetGUID account),
           csv_txn_test_field_string (csv_gdpdu_export_setup info)
             (if xaccTransGetVoidStatus (xaccSplitGetParent split)
               then split.print_void_former_amount false else split.print_amount false),
           csv_txn_test_field_string (csv_gdpdu_export_setup info) (xaccSplitGetAction split),
           "\"He said \"\"hi\"\"\"".toList] ∧
      ∀ (book : QofBook) (fs : FileSystem) (room : List Nat),
        book.splits = [split] →
        fs.device (splits_file_name info.file_name) = some room →
        ∃ fh, (csv_gdpdu_export book info fs).2.file (splits_file_name info.file_name)
            = some fh ∧
          fh.calls.map Prod.fst
            = [write_splits_table_line (csv_gdpdu_export_setup info) split account]) := by
  have hcongr : ∀ text : Str,
      csv_txn_test_field_string (csv_gdpdu_export_setup info) text
        = csv_txn_test_field_string
            { file_name := [], separator_str := [';'], mid_sep := [';'], end_sep := [],
              use_quotes := false, failed := false } text :=
    fun text => csv_txn_test_field_string_congr
      { file_name := [], separator_str := [';'], mid_sep := [';'], end_sep := [],
        use_quotes := false, failed := false } (csv_gdpdu_export_setup info) rfl hmode text
  constructor
  · intro trans hdesc hlink
    constructor
    · rw [write_transactions_table_line_eq, hdesc, hlink]
      simp only [Option.getD_some, Option.getD_none, hcongr, csv_gdpdu_export_setup_mid_sep,
        EOLSTR]
      have h1 : csv_txn_test_field_string
          { file_name := [], separator_str := [';'], mid_sep := [';'], end_sep := [],
            use_quotes := false, failed := false } "Deposit; funds".toList
          = "\"Deposit; funds\"".toList := by decide
      have h2 : csv_txn_test_field_string
          { file_name := [], separator_str := [';'], mid_sep := [';'], end_sep := [],
            use_quotes := false, failed := false } [] = [] := by decide
      have htail : ";\"Deposit; funds\";;\r\n".toList
          = [';'] ++ ("\"Deposit; funds\"".toList ++ ([';'] ++ ([] ++ ([';'] ++ ['\r', '\n']))))
          := by decide
      rw [h1, h2, htail]
      simp only [List.append_assoc]
      generalize [';'] ++ ("\"Deposit; funds\"".toList ++ ([';'] ++ ([] ++ ([';'] ++ ['\r', '\n']))))
        = tail
      simp only [← List.append_assoc]
      exact List.suffix_append _ _
    · intro book fs room hbook hopen
      rw [file_transactions_csv_gdpdu_export, hopen, hbook]
      obtain ⟨fh, hfh, hcalls, _⟩ := table_stream_single
        (transactions_file_name info.file_name)
        (write_transactions_table_line (csv_gdpdu_export_setup info) trans) room
      exact ⟨fh, hfh, hcalls⟩
  · intro split account hmemo hacc
    constructor
    · rw [write_splits_table_line_eq, hmemo]
      have h1 : csv_txn_test_field_string (csv_gdpdu_export_setup info)
          "He said \"hi\"".toList = "\"He said \"\"hi\"\"\"".toList := by
        rw [hcongr]
        decide
      simp only [Option.getD_some, h1]
      simp [gdpdu_row, EOLSTR]
    · intro book fs room hbook hopen
      rw [file_splits_csv_gdpdu_export, hopen, hbook]
      have hlines : splits_table_lines (csv_gdpdu_export_setup info) [split]
          = [write_splits_table_line (csv_gdpdu_export_setup info) split account] := by
        simp [splits_table_lines, hacc]
      rw [hlines]
      obtain ⟨fh, hfh, hcalls, _⟩ := table_stream_single
        (splits_file_name info.file_name)
        (write_splits_table_line (csv_gdpdu_export_setup info) split account) room
      exact ⟨fh, hfh, hcalls⟩

/-- C14, at the failing input: handed a configuration in "always quote" mode, the export writes
the transaction with the description `Deposit; funds` as a line that ends in
`;Deposit; funds;;` and CRLF, without the quotes, and the split with the memo `He said "hi"` as
a line whose memo field is `He said ""hi""`, with the quotes doubled and not wrapped. -/
theorem example_rows_in_always_quote_mode :
    ((csv_gdpdu_export example_book example_info_always_quote example_fs).2.file
        (transactions_file_name example_info_always_quote.file_name)).map
      (fun fh => fh.calls.map Prod.fst)
      = some ["T1;;2024-01-01;2024-01-02;;Deposit; funds;;\r\n".toList] ∧
    ((csv_gdpdu_export example_book example_info_always_quote example_fs).2.file
        (splits_file_name example_info_always_quote.file_name)).map
      (fun fh => fh.calls.map Prod.fst)
      = some ["S1;T1;A1;100.00;;He said \"\"hi\"\";\r\n".toList,
          "S1;T1;A1;100.00;;He said \"\"hi\"\";\r\n".toList] := by
  decide

end GnuCash
